import Mathlib

/-!
Verification of `FEpicUnrealMCPBlueprintCommands`
(src/UnrealMCP/Source/UnrealMCP/Private/Commands/EpicUnrealMCPBlueprintCommands.cpp).

The plugin is a thin dispatcher: each handler receives a JSON parameter bag,
performs null/presence checks and forwards the work to Unreal Engine editor
subsystems.  The engine itself is closed-source and outside the repository, so
it is modelled as an abstract environment (`Engine`): every engine query is a
function field of that structure, and every call into an engine subsystem is
additionally logged into an effect trace (`Trace`), so that claims about
"no editor state is modified" and "opened exclusively through X" can be stated
as properties of the trace.

Numbers are modelled by `Rat` (the C++ uses float/double; the claims under
verification are about control flow and exact clamping, not rounding).
-/

namespace UnrealMCP

/-- JSON values, mirroring `FJsonValue` (Null/Boolean/Number/String/Array/Object). -/
inductive JVal where
  | jnull : JVal
  | jb    : Bool → JVal
  | jnum  : Rat → JVal
  | jstr  : String → JVal
  | jarr  : List JVal → JVal
  | jobj  : List (String × JVal) → JVal

/-- A JSON parameter bag (`TSharedPtr<FJsonObject>` of the handlers): ordered field list. -/
abbrev Params := List (String × JVal)

/-- Field lookup on a JSON object (`FJsonObject::TryGetField`). -/
def getField (ps : Params) (k : String) : Option JVal :=
  (ps.find? (fun kv => kv.1 = k)).map (fun kv => kv.2)

/-- `FJsonObject::HasField`. -/
def hasField (ps : Params) (k : String) : Bool :=
  (getField ps k).isSome

/-- `FJsonObject::TryGetStringField`: succeeds when the field is present with a
string value.  (UE would additionally stringify numeric/boolean values; no
handler in this file is exercised on such inputs by the claims.) -/
def tryGetStringField (ps : Params) (k : String) : Option String :=
  match getField ps k with
  | some (.jstr s) => some s
  | _ => none

/-- `FJsonObject::TryGetArrayField`. -/
def tryGetArrayField (ps : Params) (k : String) : Option (List JVal) :=
  match getField ps k with
  | some (.jarr xs) => some xs
  | _ => none

/-- `FJsonObject::GetBoolField` (false when absent or not a boolean). -/
def getBoolField (ps : Params) (k : String) : Bool :=
  match getField ps k with
  | some (.jb b) => b
  | _ => false

/-- `FJsonObject::TryGetBoolField` used with an initialised out-variable:
the variable keeps its prior value when the field is missing. -/
def tryGetBoolFieldD (ps : Params) (k : String) (d : Bool) : Bool :=
  match getField ps k with
  | some (.jb b) => b
  | _ => d

/-- `FJsonValue::AsNumber`: numbers give their value, booleans coerce to 1/0,
anything else gives 0.  (UE additionally parses numeric strings; the claims do
not exercise string-typed colour components.) -/
def asNumber : JVal → Rat
  | .jnum q => q
  | .jb b => if b then 1 else 0
  | _ => 0

/-- `FJsonObject::GetNumberField` (0 when absent or non-numeric). -/
def getNumberField (ps : Params) (k : String) : Rat :=
  match getField ps k with
  | some v => asNumber v
  | none => 0

/-- `FJsonObject::GetIntegerField`: the number, truncated to an integer. -/
def getIntegerField (ps : Params) (k : String) : Int :=
  ⌊getNumberField ps k⌋

/-- `FMath::Clamp(x, 0.0f, 1.0f)`. -/
def clamp01 (q : Rat) : Rat :=
  if q < 0 then 0 else if 1 < q then 1 else q

/-- Substring test (`FString::Contains`). -/
def strContains (s pat : String) : Bool :=
  decide (pat.data <:+: s.data)

/-- Prefix test (`FString::StartsWith`). -/
def strStartsWith (s pre : String) : Bool :=
  decide (pre.data <+: s.data)

/-- Suffix test (`FString::EndsWith`). -/
def strEndsWith (s suf : String) : Bool :=
  decide (suf.data <:+ s.data)

/-- Parent class chosen for a new blueprint: `AActor`, `APawn`, or a class
loaded from a script path (`LoadClass<AActor>`). -/
inductive PClass where
  | actor : PClass
  | pawn : PClass
  | loaded : String → PClass
deriving DecidableEq, Repr

/-- Direction of a graph pin (`EEdGraphPinDirection`). -/
inductive PinDir where
  | input : PinDir
  | output : PinDir
deriving DecidableEq, Repr

/-- Kind of a component class, sufficient to decide the `Cast<...>` checks the
handlers perform (`UStaticMeshComponent <: UPrimitiveComponent <: USceneComponent`). -/
inductive ComponentKind where
  | staticMesh : ComponentKind
  | primitive : ComponentKind
  | scene : ComponentKind
  | other : ComponentKind
deriving DecidableEq, Repr

/-- `Cast<UPrimitiveComponent>` succeeds. -/
def ComponentKind.isPrimitive : ComponentKind → Bool
  | .staticMesh => true
  | .primitive => true
  | _ => false

/-- `Cast<UStaticMeshComponent>` succeeds. -/
def ComponentKind.isStaticMesh : ComponentKind → Bool
  | .staticMesh => true
  | _ => false

/-- `Cast<USceneComponent>` succeeds. -/
def ComponentKind.isScene : ComponentKind → Bool
  | .staticMesh => true
  | .primitive => true
  | .scene => true
  | .other => false

/-- A `UMaterialInterface` as the handlers observe it. -/
structure MaterialT where
  name : String
  pathName : String
  className : String
deriving DecidableEq, Repr

/-- A `UStaticMesh` as observed: number of sections of LOD 0. -/
structure StaticMeshT where
  numSections0 : Nat
deriving DecidableEq, Repr

/-- A component template (`UActorComponent` attached to an SCS node). -/
structure Component where
  kind : ComponentKind
  className : String
  getMaterial : Int → Option MaterialT
  staticMesh : Option StaticMeshT

/-- `Cast<UPrimitiveComponent>(ComponentTemplate)`: null in, null out. -/
def castPrimitive : Option Component → Option Component
  | some c => if c.kind.isPrimitive then some c else none
  | none => none

/-- `Cast<UStaticMeshComponent>(ComponentTemplate)`. -/
def castStaticMeshComp : Option Component → Option Component
  | some c => if c.kind.isStaticMesh then some c else none
  | none => none

/-- `Cast<USceneComponent>(ComponentTemplate)`. -/
def castScene : Option Component → Option Component
  | some c => if c.kind.isScene then some c else none
  | none => none

/-- A `USCS_Node` of a blueprint's simple construction script. -/
structure SCSNode where
  variableName : String
  componentTemplate : Option Component
  isDefaultSceneRoot : Bool

/-- A pin of a graph node (`UEdGraphPin`); `linkedTo` entries are `none` when the
linked pin is null or has no owning node. -/
structure Pin where
  pinName : String
  pinCategory : String
  direction : PinDir
  linkedTo : List (Option (String × String))

/-- A graph node (`UEdGraphNode`); entries of `pins` are null-checked in the source. -/
structure EdGraphNode where
  name : String
  klass : String
  title : String
  posX : Int
  posY : Int
  canRename : Bool
  pins : List (Option Pin)

/-- A `UEdGraph`; entries of `nodes` are null-checked in the source. -/
structure EdGraph where
  name : String
  klass : String
  nodes : List (Option EdGraphNode)

/-- An `FBPVariableDescription`.  Property flags are modelled as the four
booleans the handlers test; `tooltip` is the `MD_Tooltip` metadata when set. -/
structure VarDesc where
  varName : String
  pinCategory : String
  pinSubCategory : String
  defaultValue : String
  friendlyName : String
  tooltip : Option String
  category : String
  flagEdit : Bool
  flagBlueprintVisible : Bool
  flagDisableEditOnInstance : Bool
  flagConfig : Bool
  replicationCondition : Int

/-- A `UBlueprint` as the handlers observe it.  `simpleConstructionScript` may
be null (the source null-checks it only in `HandleReadBlueprintContent`);
list entries that the source null-checks are `Option`s. -/
structure Blueprint where
  name : String
  parentClassName : Option String
  generatedClassName : Option String
  newVariables : List VarDesc
  ubergraphPages : List (Option EdGraph)
  functionGraphs : List (Option EdGraph)
  simpleConstructionScript : Option (List (Option SCSNode))
  implementedInterfaces : List (Option String)

/-- A `UStaticMeshComponent` found on a level actor. -/
structure MeshComp where
  name : String
  numMaterials : Nat
  getMaterial : Int → Option MaterialT

/-- An `AActor` in the editor world. -/
structure ActorT where
  name : String
  staticMeshComps : List (Option MeshComp)

/-- The editor world (`GEditor->GetEditorWorldContext().World()`). -/
structure World where
  actors : List (Option ActorT)

/-- An `FAssetData` entry of the asset registry. -/
structure AssetData where
  assetName : String
  objectPathString : String
  packageName : String
  packagePath : String
  assetClassPath : String
deriving DecidableEq, Repr

/-- A loaded `UObject` (`UEditorAssetLibrary::LoadAsset` result), with the
class facts the handlers test via `IsA`/`Cast`. -/
structure Asset where
  name : String
  pathName : String
  packageName : String
  packagePath : String
  className : String
  isWorld : Bool
  isMaterialInterface : Bool
  asBlueprint : Option Blueprint
  asMaterial : Option MaterialT
  asStaticMesh : Option StaticMeshT

/-- A component class found by `FindObject<UClass>`. -/
structure CompClass where
  name : String
  isActorComponent : Bool
  kind : ComponentKind
deriving Repr

/-- One call into an Unreal Engine editor subsystem, as logged by the handlers. -/
inductive ECall where
  | doesAssetExist : String → ECall
  | createPackage : String → ECall
  | factoryCreateNew : PClass → String → String → ECall
  | assetCreated : String → ECall
  | markPackageDirty : String → ECall
  | findBlueprint : String → ECall
  | findComponentClass : String → ECall
  | loadClass : String → ECall
  | createSCSNode : String → String → ECall
  | setRelativeTransform : String → ECall
  | addSCSNode : String → ECall
  | compileBlueprint : String → ECall
  | markBlueprintModified : String → ECall
  | setSimulatePhysics : Bool → ECall
  | setMassOverride : Rat → ECall
  | setLinearDamping : Rat → ECall
  | setAngularDamping : Rat → ECall
  | loadAsset : String → ECall
  | setStaticMesh : String → ECall
  | setMaterial : String → Int → ECall
  | getEditorWorld : ECall
  | spawnActor : Option String → ECall
  | setActorLabel : String → ECall
  | createDynMaterial : String → ECall
  | setVectorParameter : String → ECall
  | registryGetAssets : ECall
  | listAssets : String → ECall
  | loadLevel : String → ECall
  | openEditorForAsset : String → ECall
deriving DecidableEq

/-- A 3-vector of the transform helpers. -/
structure Vec3 where
  x : Rat
  y : Rat
  z : Rat
deriving DecidableEq, Repr

/-- The engine environment: one function field per engine query the handlers
make.  `FEpicUnrealMCPCommonUtils` helpers (`FindBlueprint`,
`GetVectorFromJson`, `GetRotatorFromJson`, `ActorToJsonObject`) are part of the
repository but not under src/; they are modelled as opaque environment
functions, which is all the dispatch code observes of them.  `compileOutcome`
records whether `FKismetEditorUtilities::CompileBlueprint` succeeds; no handler
consults it (the engine call returns void and its errors are only recorded in
the blueprint's status). -/
structure Engine where
  doesAssetExist : String → Bool
  findBlueprint : String → Option Blueprint
  loadAsset : String → Option Asset
  loadClassExists : String → Bool
  factoryCreateNew : PClass → String → String → Option Blueprint
  findObjectClass : String → Option CompClass
  createSCSNode : String → String → Option SCSNode
  createDynMaterial : MaterialT → Option MaterialT
  compileOutcome : String → Bool
  editorWorld : Option World
  spawnActor : World → Option String → Vec3 → Vec3 → Option ActorT
  getVectorFromJson : Params → String → Vec3
  getRotatorFromJson : Params → String → Vec3
  actorToJson : ActorT → List (String × JVal)
  registryAssets : List AssetData
  listAssets : String → List String
  levelEditorAvailable : Bool
  assetEditorAvailable : Bool
  loadLevelOk : String → Bool
  openEditorOk : String → Bool

/-- A handler response.  `FEpicUnrealMCPCommonUtils::CreateErrorResponse` (not
under src/) is modelled from the spec: it wraps a message into an error
response, so a response is either a result object or an error message.
`crash` models the undefined behaviour of dereferencing a null
`SimpleConstructionScript`, which several handlers do without a check. -/
inductive Response where
  | ok : List (String × JVal) → Response
  | err : String → Response
  | crash : Response

/-- The effect trace: engine-subsystem calls in program order. -/
abbrev Trace := List ECall

/-- A handler result: response plus effect trace. -/
abbrev HResult := Response × Trace

/-- Class-name normalisation of `HandleCreateBlueprint` (lines 147-151): a
`parent_class` value that does not start with "A" gets "A" prefixed before lookup. -/
def lookupClassName (pc : String) : String :=
  if strStartsWith pc "A" then pc else "A" ++ pc

/-- Parent class resolution of `HandleCreateBlueprint` (lines 137-187):
default `AActor`; for a non-empty `parent_class`, try `APawn`/`AActor`
directly, then `LoadClass` at `/Script/Engine.<name>` then `/Script/Game.<name>`,
silently keeping `AActor` when nothing is found.  Also returns the engine
calls made during resolution. -/
def resolveParentClass (env : Engine) (pc : String) : PClass × Trace :=
  if pc = "" then (.actor, [])
  else
    let cn := lookupClassName pc
    if cn = "APawn" then (.pawn, [])
    else if cn = "AActor" then (.actor, [])
    else
      let enginePath := "/Script/Engine." ++ cn
      let gamePath := "/Script/Game." ++ cn
      if env.loadClassExists enginePath then (.loaded enginePath, [.loadClass enginePath])
      else if env.loadClassExists gamePath then
        (.loaded gamePath, [.loadClass enginePath, .loadClass gamePath])
      else (.actor, [.loadClass enginePath, .loadClass gamePath])

/-- `HandleCreateBlueprint` (lines 117-210). -/
def handleCreateBlueprint (env : Engine) (ps : Params) : HResult :=
  match tryGetStringField ps "name" with
  | none => (.err "Missing \x27name\x27 parameter", [])
  | some name =>
    let path := "/Game/Blueprints/" ++ name
    if env.doesAssetExist path then
      (.err ("Blueprint already exists: " ++ name), [.doesAssetExist path])
    else
      let pc := (tryGetStringField ps "parent_class").getD ""
      let res := resolveParentClass env pc
      match env.factoryCreateNew res.1 path name with
      | some _bp =>
        (.ok [("name", .jstr name), ("path", .jstr path)],
         [.doesAssetExist path] ++ res.2 ++
           [.createPackage path, .factoryCreateNew res.1 path name,
            .assetCreated name, .markPackageDirty path])
      | none =>
        (.err "Failed to create blueprint",
         [.doesAssetExist path] ++ res.2 ++
           [.createPackage path, .factoryCreateNew res.1 path name])

/-- Component class lookup of `HandleAddComponentToBlueprint` (lines 240-265):
exact name, then "Component" suffix, then "U" prefix, then both. -/
def findComponentClass (env : Engine) (ct : String) : Option CompClass :=
  match env.findObjectClass ct with
  | some c => some c
  | none =>
    let withSuffix :=
      if !strEndsWith ct "Component" then env.findObjectClass (ct ++ "Component") else none
    match withSuffix with
    | some c => some c
    | none =>
      if !strStartsWith ct "U" then
        match env.findObjectClass ("U" ++ ct) with
        | some c => some c
        | none =>
          if !strEndsWith ct "Component" then env.findObjectClass ("U" ++ ct ++ "Component")
          else none
      else none

/-- `HandleAddComponentToBlueprint` (lines 212-308).  Note the error messages
for missing `component_type` / `component_name` name the fields `type` / `name`. -/
def handleAddComponentToBlueprint (env : Engine) (ps : Params) : HResult :=
  match tryGetStringField ps "blueprint_name" with
  | none => (.err "Missing \x27blueprint_name\x27 parameter", [])
  | some bn =>
    match tryGetStringField ps "component_type" with
    | none => (.err "Missing \x27type\x27 parameter", [])
    | some ct =>
      match tryGetStringField ps "component_name" with
      | none => (.err "Missing \x27name\x27 parameter", [])
      | some cn =>
        match env.findBlueprint bn with
        | none => (.err ("Blueprint not found: " ++ bn), [.findBlueprint bn])
        | some bp =>
          let tr0 : Trace := [.findBlueprint bn, .findComponentClass ct]
          match findComponentClass env ct with
          | none => (.err ("Unknown component type: " ++ ct), tr0)
          | some cls =>
            if !cls.isActorComponent then
              (.err ("Unknown component type: " ++ ct), tr0)
            else
              match bp.simpleConstructionScript with
              | none => (.crash, tr0)
              | some _scs =>
                match env.createSCSNode cls.name cn with
                | none =>
                  (.err "Failed to add component to blueprint",
                   tr0 ++ [.createSCSNode cls.name cn])
                | some node =>
                  let transformCalls : Trace :=
                    match castScene node.componentTemplate with
                    | some _ =>
                      (if hasField ps "location" then [.setRelativeTransform "location"] else []) ++
                      (if hasField ps "rotation" then [.setRelativeTransform "rotation"] else []) ++
                      (if hasField ps "scale" then [.setRelativeTransform "scale"] else [])
                    | none => []
                  (.ok [("component_name", .jstr cn), ("component_type", .jstr ct)],
                   tr0 ++ [.createSCSNode cls.name cn] ++ transformCalls ++
                     [.addSCSNode cn, .compileBlueprint bn])

/-- Component search loop shared by several handlers: first non-null SCS node
whose variable name matches. -/
def findSCSNodeByName : List (Option SCSNode) → String → Option SCSNode
  | [], _ => none
  | none :: rest, nm => findSCSNodeByName rest nm
  | some n :: rest, nm =>
    if n.variableName = nm then some n else findSCSNodeByName rest nm

/-- `HandleSetPhysicsProperties` (lines 310-384). -/
def handleSetPhysicsProperties (env : Engine) (ps : Params) : HResult :=
  match tryGetStringField ps "blueprint_name" with
  | none => (.err "Missing \x27blueprint_name\x27 parameter", [])
  | some bn =>
    match tryGetStringField ps "component_name" with
    | none => (.err "Missing \x27component_name\x27 parameter", [])
    | some cn =>
      match env.findBlueprint bn with
      | none => (.err ("Blueprint not found: " ++ bn), [.findBlueprint bn])
      | some bp =>
        match bp.simpleConstructionScript with
        | none => (.crash, [.findBlueprint bn])
        | some scs =>
          match findSCSNodeByName scs cn with
          | none => (.err ("Component not found: " ++ cn), [.findBlueprint bn])
          | some node =>
            match castPrimitive node.componentTemplate with
            | none => (.err "Component is not a primitive component", [.findBlueprint bn])
            | some _prim =>
              let calls : Trace :=
                (if hasField ps "simulate_physics" then
                  [.setSimulatePhysics (getBoolField ps "simulate_physics")] else []) ++
                (if hasField ps "mass" then
                  [.setMassOverride (getNumberField ps "mass")] else []) ++
                (if hasField ps "linear_damping" then
                  [.setLinearDamping (getNumberField ps "linear_damping")] else []) ++
                (if hasField ps "angular_damping" then
                  [.setAngularDamping (getNumberField ps "angular_damping")] else [])
              (.ok [("component", .jstr cn)],
               [.findBlueprint bn] ++ calls ++ [.markBlueprintModified bn])

/-- `HandleCompileBlueprint` (lines 386-409): finds the blueprint, issues the
compile call (whose outcome it never consults), and reports
`name`/`compiled = true`. -/
def handleCompileBlueprint (env : Engine) (ps : Params) : HResult :=
  match tryGetStringField ps "blueprint_name" with
  | none => (.err "Missing \x27blueprint_name\x27 parameter", [])
  | some bn =>
    match env.findBlueprint bn with
    | none => (.err ("Blueprint not found: " ++ bn), [.findBlueprint bn])
    | some _bp =>
      (.ok [("name", .jstr bn), ("compiled", .jb true)],
       [.findBlueprint bn, .compileBlueprint bn])

/-- `HandleSpawnBlueprintActor` (lines 411-498). -/
def handleSpawnBlueprintActor (env : Engine) (ps : Params) : HResult :=
  match tryGetStringField ps "blueprint_name" with
  | none => (.err "Missing \x27blueprint_name\x27 parameter", [])
  | some bn =>
    match tryGetStringField ps "actor_name" with
    | none => (.err "Missing \x27actor_name\x27 parameter", [])
    | some an =>
      match env.findBlueprint bn with
      | none => (.err ("Blueprint not found: " ++ bn), [.findBlueprint bn])
      | some bp =>
        let loc := if hasField ps "location" then env.getVectorFromJson ps "location"
                   else ⟨0, 0, 0⟩
        let rot := if hasField ps "rotation" then env.getRotatorFromJson ps "rotation"
                   else ⟨0, 0, 0⟩
        match env.editorWorld with
        | none =>
          (.err "Failed to get editor world", [.findBlueprint bn, .getEditorWorld])
        | some w =>
          let tr0 : Trace :=
            [.findBlueprint bn, .getEditorWorld, .spawnActor bp.generatedClassName]
          match env.spawnActor w bp.generatedClassName loc rot with
          | none => (.err "Failed to spawn blueprint actor", tr0)
          | some actor =>
            (.ok (env.actorToJson actor), tr0 ++ [.setActorLabel an])

/-- `HandleSetStaticMeshProperties` (lines 500-571). -/
def handleSetStaticMeshProperties (env : Engine) (ps : Params) : HResult :=
  match tryGetStringField ps "blueprint_name" with
  | none => (.err "Missing \x27blueprint_name\x27 parameter", [])
  | some bn =>
    match tryGetStringField ps "component_name" with
    | none => (.err "Missing \x27component_name\x27 parameter", [])
    | some cn =>
      match env.findBlueprint bn with
      | none => (.err ("Blueprint not found: " ++ bn), [.findBlueprint bn])
      | some bp =>
        match bp.simpleConstructionScript with
        | none => (.crash, [.findBlueprint bn])
        | some scs =>
          match findSCSNodeByName scs cn with
          | none => (.err ("Component not found: " ++ cn), [.findBlueprint bn])
          | some node =>
            match castStaticMeshComp node.componentTemplate with
            | none => (.err "Component is not a static mesh component", [.findBlueprint bn])
            | some _mesh =>
              let meshCalls : Trace :=
                if hasField ps "static_mesh" then
                  let mp := (tryGetStringField ps "static_mesh").getD ""
                  [.loadAsset mp] ++
                    (match (env.loadAsset mp).bind Asset.asStaticMesh with
                     | some _ => [.setStaticMesh cn]
                     | none => [])
                else []
              let matCalls : Trace :=
                if hasField ps "material" then
                  let mp := (tryGetStringField ps "material").getD ""
                  [.loadAsset mp] ++
                    (match (env.loadAsset mp).bind Asset.asMaterial with
                     | some _ => [.setMaterial cn 0]
                     | none => [])
                else []
              (.ok [("component", .jstr cn)],
               [.findBlueprint bn] ++ meshCalls ++ matCalls ++ [.markBlueprintModified bn])

/-- The colour-format error message of `HandleSetMeshMaterialColor` (line 623). -/
def colorFormatError : String :=
  "\x27color\x27 must be an array of 4 float values [R, G, B, A]"

/-- `HandleSetMeshMaterialColor` (lines 573-706). -/
def handleSetMeshMaterialColor (env : Engine) (ps : Params) : HResult :=
  match tryGetStringField ps "blueprint_name" with
  | none => (.err "Missing \x27blueprint_name\x27 parameter", [])
  | some bn =>
    match tryGetStringField ps "component_name" with
    | none => (.err "Missing \x27component_name\x27 parameter", [])
    | some cn =>
      match env.findBlueprint bn with
      | none => (.err ("Blueprint not found: " ++ bn), [.findBlueprint bn])
      | some bp =>
        match bp.simpleConstructionScript with
        | none => (.crash, [.findBlueprint bn])
        | some scs =>
          match findSCSNodeByName scs cn with
          | none => (.err ("Component not found: " ++ cn), [.findBlueprint bn])
          | some node =>
            match castPrimitive node.componentTemplate with
            | none => (.err "Component is not a primitive component", [.findBlueprint bn])
            | some comp =>
              match tryGetArrayField ps "color" with
              | none => (.err colorFormatError, [.findBlueprint bn])
              | some arr =>
                if arr.length ≠ 4 then (.err colorFormatError, [.findBlueprint bn])
                else
                  let colors := arr.map (fun v => clamp01 (asNumber v))
                  let slot := if hasField ps "material_slot" then
                                getIntegerField ps "material_slot" else 0
                  let pname := (tryGetStringField ps "parameter_name").getD "BaseColor"
                  let finish : MaterialT → Trace → HResult := fun mat matTrace =>
                    match env.createDynMaterial mat with
                    | none =>
                      (.err "Failed to create dynamic material instance",
                       [.findBlueprint bn] ++ matTrace ++ [.createDynMaterial mat.name])
                    | some _dyn =>
                      (.ok [("component", .jstr cn),
                            ("material_slot", .jnum (slot : Int)),
                            ("parameter_name", .jstr pname),
                            ("color", .jarr (colors.map JVal.jnum)),
                            ("success", .jb true)],
                       [.findBlueprint bn] ++ matTrace ++
                         [.createDynMaterial mat.name, .setVectorParameter pname,
                          .setMaterial cn slot, .markBlueprintModified bn])
                  match tryGetStringField ps "material_path" with
                  | some mp =>
                    match (env.loadAsset mp).bind Asset.asMaterial with
                    | none =>
                      (.err ("Failed to load material: " ++ mp),
                       [.findBlueprint bn, .loadAsset mp])
                    | some mat => finish mat [.loadAsset mp]
                  | none =>
                    match comp.getMaterial slot with
                    | some mat => finish mat []
                    | none =>
                      let defPath := "/Engine/BasicShapes/BasicShapeMaterial"
                      match (env.loadAsset defPath).bind Asset.asMaterial with
                      | none =>
                        (.err "No material found on component and failed to load default material",
                         [.findBlueprint bn, .loadAsset defPath])
                      | some mat => finish mat [.loadAsset defPath]

/-- The class-path filter of `HandleGetAvailableMaterials` (lines 729-733):
`GetClassPathName()` of the four material classes. -/
def materialClassPaths : List String :=
  ["/Script/Engine.MaterialInterface", "/Script/Engine.Material",
   "/Script/Engine.MaterialInstanceConstant", "/Script/Engine.MaterialInstanceDynamic"]

/-- Search-path normalisation of `HandleGetAvailableMaterials` (lines 736-747),
applied only to a non-empty supplied path: ensure a leading and a trailing "/". -/
def normalizeSearchPath (s : String) : String :=
  let s1 := if strStartsWith s "/" then s else "/" ++ s
  if strEndsWith s1 "/" then s1 else s1 ++ "/"

/-- The asset registry's `GetAssets` on the filter built by
`HandleGetAvailableMaterials`: material classes under any of the given package
paths, recursively.  The registry itself is the engine's `registryAssets` list. -/
def registryMaterials (env : Engine) (packagePaths : List String) : List AssetData :=
  env.registryAssets.filter (fun d =>
    materialClassPaths.contains d.assetClassPath &&
    packagePaths.any (fun p => strStartsWith d.packagePath p))

/-- `FAssetData` built manually from a loaded asset (line 805). -/
def assetDataOfAsset (a : Asset) : AssetData :=
  { assetName := a.name, objectPathString := a.pathName, packageName := a.packageName,
    packagePath := a.packagePath, assetClassPath := a.className }

/-- One iteration of the manual `EditorAssetLibrary` pass of
`HandleGetAvailableMaterials` (lines 784-810): keep paths that contain
"Material" and not ".uasset", load them, keep `UMaterialInterface`s, and only
add the asset when its path is not already in the accumulated array. -/
def manualStep (env : Engine) (acc : List AssetData) (p : String) : List AssetData :=
  if strContains p "Material" && !strContains p ".uasset" then
    match env.loadAsset p with
    | some a =>
      if a.isMaterialInterface then
        if acc.any (fun d => d.objectPathString == p) then acc
        else acc ++ [assetDataOfAsset a]
      else acc
    | none => acc
  else acc

/-- The whole manual pass: fold of `manualStep` over the listed asset paths. -/
def manualPass (env : Engine) (acc : List AssetData) (paths : List String) : List AssetData :=
  paths.foldl (manualStep env) acc

/-- JSON entry for one found material (lines 816-824). -/
def assetDataToJson (d : AssetData) : JVal :=
  .jobj [("name", .jstr d.assetName), ("path", .jstr d.objectPathString),
         ("package", .jstr d.packageName), ("class", .jstr d.assetClassPath)]

/-- The `search_path` parameter (lines 711-716): the empty string when absent. -/
def searchPathOf (ps : Params) : String :=
  (tryGetStringField ps "search_path").getD ""

/-- The package paths put into the registry filter (lines 735-762): the
normalised supplied path, or "/Game/" when the supplied path is empty, plus
"/Engine/" unless `include_engine_materials` is false. -/
def packagePathsOf (ps : Params) : List String :=
  let sp := searchPathOf ps
  let includeEngine := if hasField ps "include_engine_materials" then
                         getBoolField ps "include_engine_materials" else true
  (if sp = "" then ["/Game/"] else [normalizeSearchPath sp]) ++
    (if includeEngine then ["/Engine/"] else [])

/-- The path given to `UEditorAssetLibrary::ListAssets` (lines 773-781). -/
def listPathOf (ps : Params) : String :=
  if searchPathOf ps = "" then "/Game/" else normalizeSearchPath (searchPathOf ps)

/-- The asset-registry results of `HandleGetAvailableMaterials` (lines 766-768). -/
def regResultsOf (env : Engine) (ps : Params) : List AssetData :=
  registryMaterials env (packagePathsOf ps)

/-- The final material list of `HandleGetAvailableMaterials`: registry results
followed by the additions of the manual pass. -/
def availableMaterialsList (env : Engine) (ps : Params) : List AssetData :=
  manualPass env (regResultsOf env ps) (env.listAssets (listPathOf ps))

/-- `HandleGetAvailableMaterials` (lines 708-835). -/
def handleGetAvailableMaterials (env : Engine) (ps : Params) : HResult :=
  (.ok [("materials", .jarr ((availableMaterialsList env ps).map assetDataToJson)),
        ("count", .jnum ((availableMaterialsList env ps).length : Nat)),
        ("search_path_used", .jstr (if searchPathOf ps = "" then "/Game/"
                                    else normalizeSearchPath (searchPathOf ps)))],
   [.registryGetAssets, .listAssets (listPathOf ps)])

/-- Actor search loop of the actor-based handlers (lines 869-876 and
1017-1024): first non-null actor whose name matches. -/
def findActorByName : List (Option ActorT) → String → Option ActorT
  | [], _ => none
  | none :: rest, nm => findActorByName rest nm
  | some a :: rest, nm => if a.name = nm then some a else findActorByName rest nm

/-- `HandleApplyMaterialToActor` (lines 837-916). -/
def handleApplyMaterialToActor (env : Engine) (ps : Params) : HResult :=
  match tryGetStringField ps "actor_name" with
  | none => (.err "Missing \x27actor_name\x27 parameter", [])
  | some an =>
    match tryGetStringField ps "material_path" with
    | none => (.err "Missing \x27material_path\x27 parameter", [])
    | some mp =>
      let slot := if hasField ps "material_slot" then getIntegerField ps "material_slot" else 0
      match env.editorWorld with
      | none => (.err "Failed to get editor world", [.getEditorWorld])
      | some w =>
        match findActorByName w.actors an with
        | none => (.err ("Actor not found: " ++ an), [.getEditorWorld])
        | some actor =>
          match (env.loadAsset mp).bind Asset.asMaterial with
          | none =>
            (.err ("Failed to load material: " ++ mp), [.getEditorWorld, .loadAsset mp])
          | some _mat =>
            let comps := actor.staticMeshComps.filterMap id
            let calls : Trace := comps.map (fun c => .setMaterial c.name slot)
            if comps.isEmpty then
              (.err "No mesh components found on actor", [.getEditorWorld, .loadAsset mp])
            else
              (.ok [("actor_name", .jstr an), ("material_path", .jstr mp),
                    ("material_slot", .jnum (slot : Int)), ("success", .jb true)],
               [.getEditorWorld, .loadAsset mp] ++ calls)

/-- `HandleApplyMaterialToBlueprint` (lines 918-995). -/
def handleApplyMaterialToBlueprint (env : Engine) (ps : Params) : HResult :=
  match tryGetStringField ps "blueprint_name" with
  | none => (.err "Missing \x27blueprint_name\x27 parameter", [])
  | some bn =>
    match tryGetStringField ps "component_name" with
    | none => (.err "Missing \x27component_name\x27 parameter", [])
    | some cn =>
      match tryGetStringField ps "material_path" with
      | none => (.err "Missing \x27material_path\x27 parameter", [])
      | some mp =>
        let slot := if hasField ps "material_slot" then getIntegerField ps "material_slot" else 0
        match env.findBlueprint bn with
        | none => (.err ("Blueprint not found: " ++ bn), [.findBlueprint bn])
        | some bp =>
          match bp.simpleConstructionScript with
          | none => (.crash, [.findBlueprint bn])
          | some scs =>
            match findSCSNodeByName scs cn with
            | none => (.err ("Component not found: " ++ cn), [.findBlueprint bn])
            | some node =>
              match castPrimitive node.componentTemplate with
              | none => (.err "Component is not a primitive component", [.findBlueprint bn])
              | some _prim =>
                match (env.loadAsset mp).bind Asset.asMaterial with
                | none =>
                  (.err ("Failed to load material: " ++ mp), [.findBlueprint bn, .loadAsset mp])
                | some _mat =>
                  (.ok [("blueprint_name", .jstr bn), ("component_name", .jstr cn),
                        ("material_path", .jstr mp), ("material_slot", .jnum (slot : Int)),
                        ("success", .jb true)],
                   [.findBlueprint bn, .loadAsset mp,
                    .setMaterial cn slot, .markBlueprintModified bn])

/-- JSON for one material slot (lines 1043-1059 and 1130-1146). -/
def materialSlotJson (slot : Int) (compName : String) (mat : Option MaterialT) : JVal :=
  .jobj ([("slot", .jnum slot), ("component", .jstr compName)] ++
    (match mat with
     | some m =>
       [("material_name", .jstr m.name), ("material_path", .jstr m.pathName),
        ("material_class", .jstr m.className)]
     | none =>
       [("material_name", .jstr "None"), ("material_path", .jstr ""),
        ("material_class", .jstr "")]))

/-- `HandleGetActorMaterialInfo` (lines 997-1072). -/
def handleGetActorMaterialInfo (env : Engine) (ps : Params) : HResult :=
  match tryGetStringField ps "actor_name" with
  | none => (.err "Missing \x27actor_name\x27 parameter", [])
  | some an =>
    match env.editorWorld with
    | none => (.err "Failed to get editor world", [.getEditorWorld])
    | some w =>
      match findActorByName w.actors an with
      | none => (.err ("Actor not found: " ++ an), [.getEditorWorld])
      | some actor =>
        let slots : List JVal :=
          (actor.staticMeshComps.filterMap id).flatMap (fun c =>
            (List.range c.numMaterials).map (fun i =>
              materialSlotJson (i : Nat) c.name (c.getMaterial (i : Nat))))
        (.ok [("actor_name", .jstr an), ("material_slots", .jarr slots),
              ("total_slots", .jnum (slots.length : Nat))],
         [.getEditorWorld])

/-- `HandleGetBlueprintMaterialInfo` (lines 1074-1165). -/
def handleGetBlueprintMaterialInfo (env : Engine) (ps : Params) : HResult :=
  match tryGetStringField ps "blueprint_name" with
  | none => (.err "Missing \x27blueprint_name\x27 parameter", [])
  | some bn =>
    match tryGetStringField ps "component_name" with
    | none => (.err "Missing \x27component_name\x27 parameter", [])
    | some cn =>
      match env.findBlueprint bn with
      | none => (.err ("Blueprint not found: " ++ bn), [.findBlueprint bn])
      | some bp =>
        match bp.simpleConstructionScript with
        | none => (.crash, [.findBlueprint bn])
        | some scs =>
          match findSCSNodeByName scs cn with
          | none => (.err ("Component not found: " ++ cn), [.findBlueprint bn])
          | some node =>
            match castStaticMeshComp node.componentTemplate with
            | none => (.err "Component is not a static mesh component", [.findBlueprint bn])
            | some mesh =>
              let slots : List JVal :=
                match mesh.staticMesh with
                | some sm =>
                  (List.range sm.numSections0).map (fun i =>
                    materialSlotJson (i : Nat) cn (mesh.getMaterial (i : Nat)))
                | none => []
              (.ok [("blueprint_name", .jstr bn), ("component_name", .jstr cn),
                    ("material_slots", .jarr slots),
                    ("total_slots", .jnum (slots.length : Nat)),
                    ("has_static_mesh", .jb mesh.staticMesh.isSome)],
               [.findBlueprint bn])

/-- Graph search loop (`for (UEdGraph* Graph : ...)` with a null check and a
name comparison): first non-null graph with the given name. -/
def findGraphByName : List (Option EdGraph) → String → Option EdGraph
  | [], _ => none
  | none :: rest, n => findGraphByName rest n
  | some g :: rest, n => if g.name = n then some g else findGraphByName rest n

/-- Basic node JSON (name/class/title) used by `HandleReadBlueprintContent` and
`HandleGetBlueprintFunctionDetails`. -/
def simpleNodeJson (n : EdGraphNode) : JVal :=
  .jobj [("name", .jstr n.name), ("class", .jstr n.klass), ("title", .jstr n.title)]

/-- `HandleReadBlueprintContent` (lines 1167-1309). -/
def handleReadBlueprintContent (env : Engine) (ps : Params) : HResult :=
  match tryGetStringField ps "blueprint_path" with
  | none => (.err "Missing \x27blueprint_path\x27 parameter", [])
  | some path =>
    let incEventGraph := tryGetBoolFieldD ps "include_event_graph" true
    let incFunctions := tryGetBoolFieldD ps "include_functions" true
    let incVariables := tryGetBoolFieldD ps "include_variables" true
    let incComponents := tryGetBoolFieldD ps "include_components" true
    let incInterfaces := tryGetBoolFieldD ps "include_interfaces" true
    match (env.loadAsset path).bind Asset.asBlueprint with
    | none => (.err ("Failed to load blueprint: " ++ path), [.loadAsset path])
    | some bp =>
      let base : List (String × JVal) :=
        [("blueprint_path", .jstr path), ("blueprint_name", .jstr bp.name),
         ("parent_class", .jstr (bp.parentClassName.getD "None"))]
      let varsField : List (String × JVal) :=
        if incVariables then
          [("variables", .jarr (bp.newVariables.map (fun v =>
            .jobj [("name", .jstr v.varName), ("type", .jstr v.pinCategory),
                   ("default_value", .jstr v.defaultValue),
                   ("is_editable", .jb v.flagEdit)])))]
        else []
      let funcsField : List (String × JVal) :=
        if incFunctions then
          [("functions", .jarr ((bp.functionGraphs.filterMap id).map (fun g =>
            .jobj [("name", .jstr g.name), ("graph_type", .jstr "Function"),
                   ("node_count", .jnum (g.nodes.length : Nat))])))]
        else []
      let eventGraphField : List (String × JVal) :=
        if incEventGraph then
          [("event_graph",
            .jobj (match findGraphByName bp.ubergraphPages "EventGraph" with
              | some g =>
                [("name", .jstr g.name), ("node_count", .jnum (g.nodes.length : Nat)),
                 ("nodes", .jarr (g.nodes.filterMap (fun onode => onode.map simpleNodeJson)))]
              | none => []))]
        else []
      let compsField : List (String × JVal) :=
        if incComponents then
          [("components", .jarr (match bp.simpleConstructionScript with
            | some scs =>
              scs.filterMap (fun onode =>
                match onode with
                | some n =>
                  match n.componentTemplate with
                  | some c =>
                    some (.jobj [("name", .jstr n.variableName),
                                 ("class", .jstr c.className),
                                 ("is_root", .jb n.isDefaultSceneRoot)])
                  | none => none
                | none => none)
            | none => []))]
        else []
      let interfacesField : List (String × JVal) :=
        if incInterfaces then
          [("interfaces", .jarr (bp.implementedInterfaces.map (fun oi =>
            .jobj [("name", .jstr (oi.getD "Unknown"))])))]
        else []
      (.ok (base ++ varsField ++ funcsField ++ eventGraphField ++ compsField ++
            interfacesField ++ [("success", .jb true)]),
       [.loadAsset path])

/-- Pin JSON of `HandleAnalyzeBlueprintGraph` (lines 1402-1406). -/
def pinJson (p : Pin) : JVal :=
  .jobj [("name", .jstr p.pinName), ("type", .jstr p.pinCategory),
         ("direction", .jstr (if p.direction = .input then "Input" else "Output")),
         ("connections", .jnum (p.linkedTo.length : Nat))]

/-- Connection records contributed by one pin (lines 1409-1420): one entry per
linked pin that is non-null and has an owning node. -/
def pinConnections (nodeName : String) (p : Pin) : List JVal :=
  p.linkedTo.filterMap (fun l =>
    match l with
    | some (tn, tp) =>
      some (.jobj [("from_node", .jstr nodeName), ("from_pin", .jstr p.pinName),
                   ("to_node", .jstr tn), ("to_pin", .jstr tp)])
    | none => none)

/-- Node JSON of `HandleAnalyzeBlueprintGraph` (lines 1382-1428). -/
def analyzeNodeJson (includeDetails includePins : Bool) (n : EdGraphNode) : JVal :=
  .jobj ([("name", .jstr n.name), ("class", .jstr n.klass), ("title", .jstr n.title)] ++
    (if includeDetails then
      [("pos_x", .jnum (n.posX : Int)), ("pos_y", .jnum (n.posY : Int)),
       ("can_rename", .jb n.canRename)]
     else []) ++
    (if includePins then
      [("pins", .jarr ((n.pins.filterMap id).map pinJson))]
     else []))

/-- Connection records contributed by one node: per non-null pin, in order. -/
def nodeConnections (includePins : Bool) (n : EdGraphNode) : List JVal :=
  if includePins then (n.pins.filterMap id).flatMap (pinConnections n.name)
  else []

/-- `HandleAnalyzeBlueprintGraph` (lines 1311-1441).  `trace_execution_flow`
is read by the source but never used. -/
def handleAnalyzeBlueprintGraph (env : Engine) (ps : Params) : HResult :=
  match tryGetStringField ps "blueprint_path" with
  | none => (.err "Missing \x27blueprint_path\x27 parameter", [])
  | some path =>
    let gname := (tryGetStringField ps "graph_name").getD "EventGraph"
    let includeDetails := tryGetBoolFieldD ps "include_node_details" true
    let includePins := tryGetBoolFieldD ps "include_pin_connections" true
    let _traceFlow := tryGetBoolFieldD ps "trace_execution_flow" true
    match (env.loadAsset path).bind Asset.asBlueprint with
    | none => (.err ("Failed to load blueprint: " ++ path), [.loadAsset path])
    | some bp =>
      let target :=
        match findGraphByName bp.ubergraphPages gname with
        | some g => some g
        | none => findGraphByName bp.functionGraphs gname
      match target with
      | none => (.err ("Graph not found: " ++ gname), [.loadAsset path])
      | some g =>
        let liveNodes := g.nodes.filterMap id
        let graphData : List (String × JVal) :=
          [("graph_name", .jstr g.name), ("graph_type", .jstr g.klass),
           ("nodes", .jarr (liveNodes.map (analyzeNodeJson includeDetails includePins))),
           ("connections", .jarr (liveNodes.flatMap (nodeConnections includePins)))]
        (.ok [("blueprint_path", .jstr path), ("graph_data", .jobj graphData),
              ("success", .jb true)],
         [.loadAsset path])

/-- Variable JSON of `HandleGetBlueprintVariableDetails` (lines 1472-1498). -/
def variableDetailJson (v : VarDesc) : JVal :=
  .jobj [("name", .jstr v.varName), ("type", .jstr v.pinCategory),
         ("sub_category", .jstr v.pinSubCategory),
         ("default_value", .jstr v.defaultValue),
         ("friendly_name", .jstr (if v.friendlyName = "" then v.varName else v.friendlyName)),
         ("tooltip", .jstr (v.tooltip.getD "")),
         ("category", .jstr v.category),
         ("is_editable", .jb v.flagEdit),
         ("is_blueprint_visible", .jb v.flagBlueprintVisible),
         ("is_editable_in_instance", .jb (!v.flagDisableEditOnInstance)),
         ("is_config", .jb v.flagConfig),
         ("replication", .jnum (v.replicationCondition : Int))]

/-- `HandleGetBlueprintVariableDetails` (lines 1443-1524). -/
def handleGetBlueprintVariableDetails (env : Engine) (ps : Params) : HResult :=
  match tryGetStringField ps "blueprint_path" with
  | none => (.err "Missing \x27blueprint_path\x27 parameter", [])
  | some path =>
    let specific := tryGetStringField ps "variable_name"
    match (env.loadAsset path).bind Asset.asBlueprint with
    | none => (.err ("Failed to load blueprint: " ++ path), [.loadAsset path])
    | some bp =>
      match specific with
      | some vn =>
        let matching := bp.newVariables.filter (fun v => v.varName = vn)
        match matching with
        | [] => (.err ("Variable not found: " ++ vn), [.loadAsset path])
        | v :: _ =>
          (.ok [("blueprint_path", .jstr path), ("variable_name", .jstr vn),
                ("variable", variableDetailJson v), ("success", .jb true)],
           [.loadAsset path])
      | none =>
        let arr := bp.newVariables.map variableDetailJson
        (.ok [("blueprint_path", .jstr path), ("variables", .jarr arr),
              ("variable_count", .jnum (arr.length : Nat)), ("success", .jb true)],
         [.loadAsset path])

/-- Parameter JSON of `HandleGetBlueprintFunctionDetails` (name/type pairs). -/
def paramPinJson (p : Pin) : JVal :=
  .jobj [("name", .jstr p.pinName), ("type", .jstr p.pinCategory)]

/-- Function JSON of `HandleGetBlueprintFunctionDetails` (lines 1560-1626):
inputs are the non-"then" output pins of nodes whose class name contains
"FunctionEntry"; outputs the non-"exec" input pins of nodes whose class name
contains "FunctionResult". -/
def functionDetailJson (includeGraph : Bool) (g : EdGraph) : JVal :=
  let liveNodes := g.nodes.filterMap id
  let inputs := (liveNodes.filter (fun n => strContains n.klass "FunctionEntry")).flatMap
    (fun n => ((n.pins.filterMap id).filter
      (fun p => p.direction = .output && p.pinName ≠ "then")).map paramPinJson)
  let outputs := (liveNodes.filter (fun n => strContains n.klass "FunctionResult")).flatMap
    (fun n => ((n.pins.filterMap id).filter
      (fun p => p.direction = .input && p.pinName ≠ "exec")).map paramPinJson)
  .jobj ([("name", .jstr g.name), ("graph_type", .jstr "Function"),
          ("input_parameters", .jarr inputs), ("output_parameters", .jarr outputs),
          ("node_count", .jnum (g.nodes.length : Nat))] ++
    (if includeGraph then
      [("graph_nodes", .jarr (liveNodes.map simpleNodeJson))]
     else []))

/-- `HandleGetBlueprintFunctionDetails` (lines 1526-1652). -/
def handleGetBlueprintFunctionDetails (env : Engine) (ps : Params) : HResult :=
  match tryGetStringField ps "blueprint_path" with
  | none => (.err "Missing \x27blueprint_path\x27 parameter", [])
  | some path =>
    let specific := tryGetStringField ps "function_name"
    let includeGraph := tryGetBoolFieldD ps "include_graph" true
    match (env.loadAsset path).bind Asset.asBlueprint with
    | none => (.err ("Failed to load blueprint: " ++ path), [.loadAsset path])
    | some bp =>
      match specific with
      | some fn =>
        let matching := (bp.functionGraphs.filterMap id).filter (fun g => g.name = fn)
        match matching with
        | [] => (.err ("Function not found: " ++ fn), [.loadAsset path])
        | g :: _ =>
          (.ok [("blueprint_path", .jstr path), ("function_name", .jstr fn),
                ("function", functionDetailJson includeGraph g), ("success", .jb true)],
           [.loadAsset path])
      | none =>
        let arr := (bp.functionGraphs.filterMap id).map (functionDetailJson includeGraph)
        (.ok [("blueprint_path", .jstr path), ("functions", .jarr arr),
              ("function_count", .jnum (arr.length : Nat)), ("success", .jb true)],
         [.loadAsset path])

/-- `HandleOpenAssetInEditor` (lines 1654-1713): levels go through the level
editor subsystem's `LoadLevel`, everything else through the asset editor
subsystem's `OpenEditorForAsset`. -/
def handleOpenAssetInEditor (env : Engine) (ps : Params) : HResult :=
  match tryGetStringField ps "asset_path" with
  | none => (.err "Missing \x27asset_path\x27 parameter", [])
  | some path =>
    match env.loadAsset path with
    | none => (.err ("Failed to load asset: " ++ path), [.loadAsset path])
    | some a =>
      if a.isWorld then
        if !env.levelEditorAvailable then
          (.err "Failed to get LevelEditorSubsystem", [.loadAsset path])
        else if !env.loadLevelOk path then
          (.err ("Failed to load level: " ++ path), [.loadAsset path, .loadLevel path])
        else
          (.ok [("success", .jb true), ("asset_path", .jstr path),
                ("asset_name", .jstr a.name), ("asset_class", .jstr a.className)],
           [.loadAsset path, .loadLevel path])
      else
        if !env.assetEditorAvailable then
          (.err "Failed to get AssetEditorSubsystem", [.loadAsset path])
        else if !env.openEditorOk a.name then
          (.err ("Failed to open editor for asset: " ++ path),
           [.loadAsset path, .openEditorForAsset a.name])
        else
          (.ok [("success", .jb true), ("asset_path", .jstr path),
                ("asset_name", .jstr a.name), ("asset_class", .jstr a.className)],
           [.loadAsset path, .openEditorForAsset a.name])

/-- The 17 recognised command names, in dispatch order (lines 42-112). -/
def commandNames : List String :=
  ["create_blueprint", "add_component_to_blueprint", "set_physics_properties",
   "compile_blueprint", "set_static_mesh_properties", "spawn_blueprint_actor",
   "set_mesh_material_color", "get_available_materials", "apply_material_to_actor",
   "apply_material_to_blueprint", "get_actor_material_info",
   "get_blueprint_material_info", "read_blueprint_content", "analyze_blueprint_graph",
   "get_blueprint_variable_details", "get_blueprint_function_details",
   "open_asset_in_editor"]

/-- Handler identifiers, one per recognised command. -/
inductive Cmd where
  | createBlueprint | addComponentToBlueprint | setPhysicsProperties
  | compileBlueprintCmd | setStaticMeshProperties | spawnBlueprintActor
  | setMeshMaterialColor | getAvailableMaterials | applyMaterialToActor
  | applyMaterialToBlueprint | getActorMaterialInfo | getBlueprintMaterialInfo
  | readBlueprintContent | analyzeBlueprintGraph | getBlueprintVariableDetails
  | getBlueprintFunctionDetails | openAssetInEditor
deriving DecidableEq, Repr

/-- The if/else-if command dispatch of `HandleCommand` (lines 42-112). -/
def dispatch (ct : String) : Option Cmd :=
  if ct = "create_blueprint" then some .createBlueprint
  else if ct = "add_component_to_blueprint" then some .addComponentToBlueprint
  else if ct = "set_physics_properties" then some .setPhysicsProperties
  else if ct = "compile_blueprint" then some .compileBlueprintCmd
  else if ct = "set_static_mesh_properties" then some .setStaticMeshProperties
  else if ct = "spawn_blueprint_actor" then some .spawnBlueprintActor
  else if ct = "set_mesh_material_color" then some .setMeshMaterialColor
  else if ct = "get_available_materials" then some .getAvailableMaterials
  else if ct = "apply_material_to_actor" then some .applyMaterialToActor
  else if ct = "apply_material_to_blueprint" then some .applyMaterialToBlueprint
  else if ct = "get_actor_material_info" then some .getActorMaterialInfo
  else if ct = "get_blueprint_material_info" then some .getBlueprintMaterialInfo
  else if ct = "read_blueprint_content" then some .readBlueprintContent
  else if ct = "analyze_blueprint_graph" then some .analyzeBlueprintGraph
  else if ct = "get_blueprint_variable_details" then some .getBlueprintVariableDetails
  else if ct = "get_blueprint_function_details" then some .getBlueprintFunctionDetails
  else if ct = "open_asset_in_editor" then some .openAssetInEditor
  else none

/-- Run the handler a command dispatches to. -/
def runHandler : Cmd → Engine → Params → HResult
  | .createBlueprint => handleCreateBlueprint
  | .addComponentToBlueprint => handleAddComponentToBlueprint
  | .setPhysicsProperties => handleSetPhysicsProperties
  | .compileBlueprintCmd => handleCompileBlueprint
  | .setStaticMeshProperties => handleSetStaticMeshProperties
  | .spawnBlueprintActor => handleSpawnBlueprintActor
  | .setMeshMaterialColor => handleSetMeshMaterialColor
  | .getAvailableMaterials => handleGetAvailableMaterials
  | .applyMaterialToActor => handleApplyMaterialToActor
  | .applyMaterialToBlueprint => handleApplyMaterialToBlueprint
  | .getActorMaterialInfo => handleGetActorMaterialInfo
  | .getBlueprintMaterialInfo => handleGetBlueprintMaterialInfo
  | .readBlueprintContent => handleReadBlueprintContent
  | .analyzeBlueprintGraph => handleAnalyzeBlueprintGraph
  | .getBlueprintVariableDetails => handleGetBlueprintVariableDetails
  | .getBlueprintFunctionDetails => handleGetBlueprintFunctionDetails
  | .openAssetInEditor => handleOpenAssetInEditor

/-- `FEpicUnrealMCPBlueprintCommands::HandleCommand` (lines 40-115). -/
def handleCommand (env : Engine) (ct : String) (ps : Params) : HResult :=
  match dispatch ct with
  | some c => runHandler c env ps
  | none => (.err ("Unknown blueprint command: " ++ ct), [])

/-- Required string parameters of each recognised command, in the order the
handler checks them (the empty list for unrecognised names). -/
def requiredParams (ct : String) : List String :=
  if ct = "create_blueprint" then ["name"]
  else if ct = "add_component_to_blueprint" then
    ["blueprint_name", "component_type", "component_name"]
  else if ct = "set_physics_properties" then ["blueprint_name", "component_name"]
  else if ct = "compile_blueprint" then ["blueprint_name"]
  else if ct = "set_static_mesh_properties" then ["blueprint_name", "component_name"]
  else if ct = "spawn_blueprint_actor" then ["blueprint_name", "actor_name"]
  else if ct = "set_mesh_material_color" then ["blueprint_name", "component_name"]
  else if ct = "get_available_materials" then []
  else if ct = "apply_material_to_actor" then ["actor_name", "material_path"]
  else if ct = "apply_material_to_blueprint" then
    ["blueprint_name", "component_name", "material_path"]
  else if ct = "get_actor_material_info" then ["actor_name"]
  else if ct = "get_blueprint_material_info" then ["blueprint_name", "component_name"]
  else if ct = "read_blueprint_content" then ["blueprint_path"]
  else if ct = "analyze_blueprint_graph" then ["blueprint_path"]
  else if ct = "get_blueprint_variable_details" then ["blueprint_path"]
  else if ct = "get_blueprint_function_details" then ["blueprint_path"]
  else if ct = "open_asset_in_editor" then ["asset_path"]
  else []

/-- A response that reports a missing parameter. -/
def isMissingParamMsg (r : Response) : Prop :=
  ∃ f, r = .err ("Missing \x27" ++ f ++ "\x27 parameter")

/-- An engine in which every lookup fails and no asset exists; used to
evaluate the handlers on concrete inputs. -/
def testEngine : Engine where
  doesAssetExist := fun _ => false
  findBlueprint := fun _ => none
  loadAsset := fun _ => none
  loadClassExists := fun _ => false
  factoryCreateNew := fun _ _ _ => none
  findObjectClass := fun _ => none
  createSCSNode := fun _ _ => none
  createDynMaterial := fun _ => none
  compileOutcome := fun _ => true
  editorWorld := none
  spawnActor := fun _ _ _ _ => none
  getVectorFromJson := fun _ _ => ⟨0, 0, 0⟩
  getRotatorFromJson := fun _ _ => ⟨0, 0, 0⟩
  actorToJson := fun _ => []
  registryAssets := []
  listAssets := fun _ => []
  levelEditorAvailable := true
  assetEditorAvailable := true
  loadLevelOk := fun _ => true
  openEditorOk := fun _ => true

/-- Package a literal missing-parameter result into `isMissingParamMsg` form. -/
theorem missingPair (f : String) {X : HResult}
    (h : X = (.err ("Missing \x27" ++ f ++ "\x27 parameter"), [])) :
    isMissingParamMsg X.1 ∧ X.2 = [] := by
  rw [h]; exact ⟨⟨f, rfl⟩, rfl⟩

/-- Claim C1: a command type that is none of the 17 recognised names dispatches
to no handler; `HandleCommand` returns the error
"Unknown blueprint command: <command type>" with an empty effect trace. -/
theorem unknown_command_rejected (env : Engine) (ct : String) (ps : Params)
    (h : ct ∉ commandNames) :
    dispatch ct = none ∧
    handleCommand env ct ps = (.err ("Unknown blueprint command: " ++ ct), []) := by
  simp only [commandNames, List.mem_cons, List.not_mem_nil, or_false, not_or] at h
  obtain ⟨h1, h2, h3, h4, h5, h6, h7, h8, h9, h10, h11, h12, h13, h14, h15, h16, h17⟩ := h
  have hd : dispatch ct = none := by
    unfold dispatch
    simp only [h1, h2, h3, h4, h5, h6, h7, h8, h9, h10, h11, h12, h13, h14, h15, h16, h17,
      if_false, ite_false]
  exact ⟨hd, by unfold handleCommand; rw [hd]⟩

/-- Witness for C1 at the concrete command "delete_blueprint". -/
theorem unknown_command_rejected_witness :
    "delete_blueprint" ∉ commandNames ∧
    handleCommand testEngine "delete_blueprint" [] =
      (.err ("Unknown blueprint command: " ++ "delete_blueprint"), []) := by
  have h : "delete_blueprint" ∉ commandNames := by decide
  exact ⟨h, (unknown_command_rejected testEngine "delete_blueprint" [] h).2⟩

theorem createBlueprint_missing (env : Engine) (ps : Params)
    (h : tryGetStringField ps "name" = none) :
    handleCreateBlueprint env ps = (.err "Missing \x27name\x27 parameter", []) := by
  unfold handleCreateBlueprint; simp only [h]

theorem addComponent_missing (env : Engine) (ps : Params) (p : String)
    (hp : p ∈ (["blueprint_name", "component_type", "component_name"] : List String))
    (habs : tryGetStringField ps p = none) :
    isMissingParamMsg (handleAddComponentToBlueprint env ps).1 ∧
    (handleAddComponentToBlueprint env ps).2 = [] := by
  simp only [List.mem_cons, List.not_mem_nil, or_false] at hp
  rcases hp with rfl | rfl | rfl
  · have e : handleAddComponentToBlueprint env ps =
        (.err "Missing \x27blueprint_name\x27 parameter", []) := by
      unfold handleAddComponentToBlueprint; simp only [habs]
    exact missingPair "blueprint_name" e
  · rcases h1 : tryGetStringField ps "blueprint_name" with _ | bn
    · have e : handleAddComponentToBlueprint env ps =
          (.err "Missing \x27blueprint_name\x27 parameter", []) := by
        unfold handleAddComponentToBlueprint; simp only [h1]
      exact missingPair "blueprint_name" e
    · have e : handleAddComponentToBlueprint env ps =
          (.err "Missing \x27type\x27 parameter", []) := by
        unfold handleAddComponentToBlueprint; simp only [h1, habs]
      exact missingPair "type" e
  · rcases h1 : tryGetStringField ps "blueprint_name" with _ | bn
    · have e : handleAddComponentToBlueprint env ps =
          (.err "Missing \x27blueprint_name\x27 parameter", []) := by
        unfold handleAddComponentToBlueprint; simp only [h1]
      exact missingPair "blueprint_name" e
    · rcases h2 : tryGetStringField ps "component_type" with _ | ct
      · have e : handleAddComponentToBlueprint env ps =
            (.err "Missing \x27type\x27 parameter", []) := by
          unfold handleAddComponentToBlueprint; simp only [h1, h2]
        exact missingPair "type" e
      · have e : handleAddComponentToBlueprint env ps =
            (.err "Missing \x27name\x27 parameter", []) := by
          unfold handleAddComponentToBlueprint; simp only [h1, h2, habs]
        exact missingPair "name" e

theorem setPhysics_missing (env : Engine) (ps : Params) (p : String)
    (hp : p ∈ (["blueprint_name", "component_name"] : List String))
    (habs : tryGetStringField ps p = none) :
    isMissingParamMsg (handleSetPhysicsProperties env ps).1 ∧
    (handleSetPhysicsProperties env ps).2 = [] := by
  simp only [List.mem_cons, List.not_mem_nil, or_false] at hp
  rcases hp with rfl | rfl
  · have e : handleSetPhysicsProperties env ps =
        (.err "Missing \x27blueprint_name\x27 parameter", []) := by
      unfold handleSetPhysicsProperties; simp only [habs]
    exact missingPair "blueprint_name" e
  · rcases h1 : tryGetStringField ps "blueprint_name" with _ | bn
    · have e : handleSetPhysicsProperties env ps =
          (.err "Missing \x27blueprint_name\x27 parameter", []) := by
        unfold handleSetPhysicsProperties; simp only [h1]
      exact missingPair "blueprint_name" e
    · have e : handleSetPhysicsProperties env ps =
          (.err "Missing \x27component_name\x27 parameter", []) := by
        unfold handleSetPhysicsProperties; simp only [h1, habs]
      exact missingPair "component_name" e

theorem compileBlueprint_missing (env : Engine) (ps : Params)
    (h : tryGetStringField ps "blueprint_name" = none) :
    handleCompileBlueprint env ps = (.err "Missing \x27blueprint_name\x27 parameter", []) := by
  unfold handleCompileBlueprint; simp only [h]

theorem setStaticMesh_missing (env : Engine) (ps : Params) (p : String)
    (hp : p ∈ (["blueprint_name", "component_name"] : List String))
    (habs : tryGetStringField ps p = none) :
    isMissingParamMsg (handleSetStaticMeshProperties env ps).1 ∧
    (handleSetStaticMeshProperties env ps).2 = [] := by
  simp only [List.mem_cons, List.not_mem_nil, or_false] at hp
  rcases hp with rfl | rfl
  · have e : handleSetStaticMeshProperties env ps =
        (.err "Missing \x27blueprint_name\x27 parameter", []) := by
      unfold handleSetStaticMeshProperties; simp only [habs]
    exact missingPair "blueprint_name" e
  · rcases h1 : tryGetStringField ps "blueprint_name" with _ | bn
    · have e : handleSetStaticMeshProperties env ps =
          (.err "Missing \x27blueprint_name\x27 parameter", []) := by
        unfold handleSetStaticMeshProperties; simp only [h1]
      exact missingPair "blueprint_name" e
    · have e : handleSetStaticMeshProperties env ps =
          (.err "Missing \x27component_name\x27 parameter", []) := by
        unfold handleSetStaticMeshProperties; simp only [h1, habs]
      exact missingPair "component_name" e

theorem spawnActor_missing (env : Engine) (ps : Params) (p : String)
    (hp : p ∈ (["blueprint_name", "actor_name"] : List String))
    (habs : tryGetStringField ps p = none) :
    isMissingParamMsg (handleSpawnBlueprintActor env ps).1 ∧
    (handleSpawnBlueprintActor env ps).2 = [] := by
  simp only [List.mem_cons, List.not_mem_nil, or_false] at hp
  rcases hp with rfl | rfl
  · have e : handleSpawnBlueprintActor env ps =
        (.err "Missing \x27blueprint_name\x27 parameter", []) := by
      unfold handleSpawnBlueprintActor; simp only [habs]
    exact missingPair "blueprint_name" e
  · rcases h1 : tryGetStringField ps "blueprint_name" with _ | bn
    · have e : handleSpawnBlueprintActor env ps =
          (.err "Missing \x27blueprint_name\x27 parameter", []) := by
        unfold handleSpawnBlueprintActor; simp only [h1]
      exact missingPair "blueprint_name" e
    · have e : handleSpawnBlueprintActor env ps =
          (.err "Missing \x27actor_name\x27 parameter", []) := by
        unfold handleSpawnBlueprintActor; simp only [h1, habs]
      exact missingPair "actor_name" e

theorem setMeshMaterialColor_missing (env : Engine) (ps : Params) (p : String)
    (hp : p ∈ (["blueprint_name", "component_name"] : List String))
    (habs : tryGetStringField ps p = none) :
    isMissingParamMsg (handleSetMeshMaterialColor env ps).1 ∧
    (handleSetMeshMaterialColor env ps).2 = [] := by
  simp only [List.mem_cons, List.not_mem_nil, or_false] at hp
  rcases hp with rfl | rfl
  · have e : handleSetMeshMaterialColor env ps =
        (.err "Missing \x27blueprint_name\x27 parameter", []) := by
      unfold handleSetMeshMaterialColor; simp only [habs]
    exact missingPair "blueprint_name" e
  · rcases h1 : tryGetStringField ps "blueprint_name" with _ | bn
    · have e : handleSetMeshMaterialColor env ps =
          (.err "Missing \x27blueprint_name\x27 parameter", []) := by
        unfold handleSetMeshMaterialColor; simp only [h1]
      exact missingPair "blueprint_name" e
    · have e : handleSetMeshMaterialColor env ps =
          (.err "Missing \x27component_name\x27 parameter", []) := by
        unfold handleSetMeshMaterialColor; simp only [h1, habs]
      exact missingPair "component_name" e

theorem applyMaterialToActor_missing (env : Engine) (ps : Params) (p : String)
    (hp : p ∈ (["actor_name", "material_path"] : List String))
    (habs : tryGetStringField ps p = none) :
    isMissingParamMsg (handleApplyMaterialToActor env ps).1 ∧
    (handleApplyMaterialToActor env ps).2 = [] := by
  simp only [List.mem_cons, List.not_mem_nil, or_false] at hp
  rcases hp with rfl | rfl
  · have e : handleApplyMaterialToActor env ps =
        (.err "Missing \x27actor_name\x27 parameter", []) := by
      unfold handleApplyMaterialToActor; simp only [habs]
    exact missingPair "actor_name" e
  · rcases h1 : tryGetStringField ps "actor_name" with _ | an
    · have e : handleApplyMaterialToActor env ps =
          (.err "Missing \x27actor_name\x27 parameter", []) := by
        unfold handleApplyMaterialToActor; simp only [h1]
      exact missingPair "actor_name" e
    · have e : handleApplyMaterialToActor env ps =
          (.err "Missing \x27material_path\x27 parameter", []) := by
        unfold handleApplyMaterialToActor; simp only [h1, habs]
      exact missingPair "material_path" e

theorem applyMaterialToBlueprint_missing (env : Engine) (ps : Params) (p : String)
    (hp : p ∈ (["blueprint_name", "component_name", "material_path"] : List String))
    (habs : tryGetStringField ps p = none) :
    isMissingParamMsg (handleApplyMaterialToBlueprint env ps).1 ∧
    (handleApplyMaterialToBlueprint env ps).2 = [] := by
  simp only [List.mem_cons, List.not_mem_nil, or_false] at hp
  rcases hp with rfl | rfl | rfl
  · have e : handleApplyMaterialToBlueprint env ps =
        (.err "Missing \x27blueprint_name\x27 parameter", []) := by
      unfold handleApplyMaterialToBlueprint; simp only [habs]
    exact missingPair "blueprint_name" e
  · rcases h1 : tryGetStringField ps "blueprint_name" with _ | bn
    · have e : handleApplyMaterialToBlueprint env ps =
          (.err "Missing \x27blueprint_name\x27 parameter", []) := by
        unfold handleApplyMaterialToBlueprint; simp only [h1]
      exact missingPair "blueprint_name" e
    · have e : handleApplyMaterialToBlueprint env ps =
          (.err "Missing \x27component_name\x27 parameter", []) := by
        unfold handleApplyMaterialToBlueprint; simp only [h1, habs]
      exact missingPair "component_name" e
  · rcases h1 : tryGetStringField ps "blueprint_name" with _ | bn
    · have e : handleApplyMaterialToBlueprint env ps =
          (.err "Missing \x27blueprint_name\x27 parameter", []) := by
        unfold handleApplyMaterialToBlueprint; simp only [h1]
      exact missingPair "blueprint_name" e
    · rcases h2 : tryGetStringField ps "component_name" with _ | cn
      · have e : handleApplyMaterialToBlueprint env ps =
            (.err "Missing \x27component_name\x27 parameter", []) := by
          unfold handleApplyMaterialToBlueprint; simp only [h1, h2]
        exact missingPair "component_name" e
      · have e : handleApplyMaterialToBlueprint env ps =
            (.err "Missing \x27material_path\x27 parameter", []) := by
          unfold handleApplyMaterialToBlueprint; simp only [h1, h2, habs]
        exact missingPair "material_path" e

theorem getActorMaterialInfo_missing (env : Engine) (ps : Params)
    (h : tryGetStringField ps "actor_name" = none) :
    handleGetActorMaterialInfo env ps = (.err "Missing \x27actor_name\x27 parameter", []) := by
  unfold handleGetActorMaterialInfo; simp only [h]

theorem getBlueprintMaterialInfo_missing (env : Engine) (ps : Params) (p : String)
    (hp : p ∈ (["blueprint_name", "component_name"] : List String))
    (habs : tryGetStringField ps p = none) :
    isMissingParamMsg (handleGetBlueprintMaterialInfo env ps).1 ∧
    (handleGetBlueprintMaterialInfo env ps).2 = [] := by
  simp only [List.mem_cons, List.not_mem_nil, or_false] at hp
  rcases hp with rfl | rfl
  · have e : handleGetBlueprintMaterialInfo env ps =
        (.err "Missing \x27blueprint_name\x27 parameter", []) := by
      unfold handleGetBlueprintMaterialInfo; simp only [habs]
    exact missingPair "blueprint_name" e
  · rcases h1 : tryGetStringField ps "blueprint_name" with _ | bn
    · have e : handleGetBlueprintMaterialInfo env ps =
          (.err "Missing \x27blueprint_name\x27 parameter", []) := by
        unfold handleGetBlueprintMaterialInfo; simp only [h1]
      exact missingPair "blueprint_name" e
    · have e : handleGetBlueprintMaterialInfo env ps =
          (.err "Missing \x27component_name\x27 parameter", []) := by
        unfold handleGetBlueprintMaterialInfo; simp only [h1, habs]
      exact missingPair "component_name" e

theorem readBlueprintContent_missing (env : Engine) (ps : Params)
    (h : tryGetStringField ps "blueprint_path" = none) :
    handleReadBlueprintContent env ps =
      (.err "Missing \x27blueprint_path\x27 parameter", []) := by
  unfold handleReadBlueprintContent; simp only [h]

theorem analyzeBlueprintGraph_missing (env : Engine) (ps : Params)
    (h : tryGetStringField ps "blueprint_path" = none) :
    handleAnalyzeBlueprintGraph env ps =
      (.err "Missing \x27blueprint_path\x27 parameter", []) := by
  unfold handleAnalyzeBlueprintGraph; simp only [h]

theorem getVariableDetails_missing (env : Engine) (ps : Params)
    (h : tryGetStringField ps "blueprint_path" = none) :
    handleGetBlueprintVariableDetails env ps =
      (.err "Missing \x27blueprint_path\x27 parameter", []) := by
  unfold handleGetBlueprintVariableDetails; simp only [h]

theorem getFunctionDetails_missing (env : Engine) (ps : Params)
    (h : tryGetStringField ps "blueprint_path" = none) :
    handleGetBlueprintFunctionDetails env ps =
      (.err "Missing \x27blueprint_path\x27 parameter", []) := by
  unfold handleGetBlueprintFunctionDetails; simp only [h]

theorem openAssetInEditor_missing (env : Engine) (ps : Params)
    (h : tryGetStringField ps "asset_path" = none) :
    handleOpenAssetInEditor env ps = (.err "Missing \x27asset_path\x27 parameter", []) := by
  unfold handleOpenAssetInEditor; simp only [h]

/-- Claim C2: for every recognised command, a missing required string
parameter makes the handler return a missing-parameter error before any call
into an engine subsystem (the effect trace is empty, so no editor state is
modified on that path). -/
theorem missing_required_param (env : Engine) (ct : String) (ps : Params) (p : String)
    (hp : p ∈ requiredParams ct) (habs : tryGetStringField ps p = none) :
    isMissingParamMsg (handleCommand env ct ps).1 ∧ (handleCommand env ct ps).2 = [] := by
  by_cases c1 : ct = "create_blueprint"
  · subst c1
    have hp1 : p ∈ (["name"] : List String) := hp
    have hpe := List.mem_singleton.mp hp1
    subst hpe
    show isMissingParamMsg (handleCreateBlueprint env ps).1 ∧
      (handleCreateBlueprint env ps).2 = []
    exact missingPair "name" (createBlueprint_missing env ps habs)
  by_cases c2 : ct = "add_component_to_blueprint"
  · subst c2
    simp only [requiredParams, reduceIte] at hp
    exact addComponent_missing env ps p hp habs
  by_cases c3 : ct = "set_physics_properties"
  · subst c3
    simp only [requiredParams, reduceIte] at hp
    exact setPhysics_missing env ps p hp habs
  by_cases c4 : ct = "compile_blueprint"
  · subst c4
    have hp1 : p ∈ (["blueprint_name"] : List String) := hp
    have hpe := List.mem_singleton.mp hp1
    subst hpe
    show isMissingParamMsg (handleCompileBlueprint env ps).1 ∧
      (handleCompileBlueprint env ps).2 = []
    exact missingPair "blueprint_name" (compileBlueprint_missing env ps habs)
  by_cases c5 : ct = "set_static_mesh_properties"
  · subst c5
    simp only [requiredParams, reduceIte] at hp
    exact setStaticMesh_missing env ps p hp habs
  by_cases c6 : ct = "spawn_blueprint_actor"
  · subst c6
    simp only [requiredParams, reduceIte] at hp
    exact spawnActor_missing env ps p hp habs
  by_cases c7 : ct = "set_mesh_material_color"
  · subst c7
    simp only [requiredParams, reduceIte] at hp
    exact setMeshMaterialColor_missing env ps p hp habs
  by_cases c8 : ct = "get_available_materials"
  · subst c8
    exact absurd (show p ∈ ([] : List String) from hp) (List.not_mem_nil p)
  by_cases c9 : ct = "apply_material_to_actor"
  · subst c9
    simp only [requiredParams, reduceIte] at hp
    exact applyMaterialToActor_missing env ps p hp habs
  by_cases c10 : ct = "apply_material_to_blueprint"
  · subst c10
    simp only [requiredParams, reduceIte] at hp
    exact applyMaterialToBlueprint_missing env ps p hp habs
  by_cases c11 : ct = "get_actor_material_info"
  · subst c11
    have hp1 : p ∈ (["actor_name"] : List String) := hp
    have hpe := List.mem_singleton.mp hp1
    subst hpe
    show isMissingParamMsg (handleGetActorMaterialInfo env ps).1 ∧
      (handleGetActorMaterialInfo env ps).2 = []
    exact missingPair "actor_name" (getActorMaterialInfo_missing env ps habs)
  by_cases c12 : ct = "get_blueprint_material_info"
  · subst c12
    simp only [requiredParams, reduceIte] at hp
    exact getBlueprintMaterialInfo_missing env ps p hp habs
  by_cases c13 : ct = "read_blueprint_content"
  · subst c13
    have hp1 : p ∈ (["blueprint_path"] : List String) := hp
    have hpe := List.mem_singleton.mp hp1
    subst hpe
    show isMissingParamMsg (handleReadBlueprintContent env ps).1 ∧
      (handleReadBlueprintContent env ps).2 = []
    exact missingPair "blueprint_path" (readBlueprintContent_missing env ps habs)
  by_cases c14 : ct = "analyze_blueprint_graph"
  · subst c14
    have hp1 : p ∈ (["blueprint_path"] : List String) := hp
    have hpe := List.mem_singleton.mp hp1
    subst hpe
    show isMissingParamMsg (handleAnalyzeBlueprintGraph env ps).1 ∧
      (handleAnalyzeBlueprintGraph env ps).2 = []
    exact missingPair "blueprint_path" (analyzeBlueprintGraph_missing env ps habs)
  by_cases c15 : ct = "get_blueprint_variable_details"
  · subst c15
    have hp1 : p ∈ (["blueprint_path"] : List String) := hp
    have hpe := List.mem_singleton.mp hp1
    subst hpe
    show isMissingParamMsg (handleGetBlueprintVariableDetails env ps).1 ∧
      (handleGetBlueprintVariableDetails env ps).2 = []
    exact missingPair "blueprint_path" (getVariableDetails_missing env ps habs)
  by_cases c16 : ct = "get_blueprint_function_details"
  · subst c16
    have hp1 : p ∈ (["blueprint_path"] : List String) := hp
    have hpe := List.mem_singleton.mp hp1
    subst hpe
    show isMissingParamMsg (handleGetBlueprintFunctionDetails env ps).1 ∧
      (handleGetBlueprintFunctionDetails env ps).2 = []
    exact missingPair "blueprint_path" (getFunctionDetails_missing env ps habs)
  by_cases c17 : ct = "open_asset_in_editor"
  · subst c17
    have hp1 : p ∈ (["asset_path"] : List String) := hp
    have hpe := List.mem_singleton.mp hp1
    subst hpe
    show isMissingParamMsg (handleOpenAssetInEditor env ps).1 ∧
      (handleOpenAssetInEditor env ps).2 = []
    exact missingPair "asset_path" (openAssetInEditor_missing env ps habs)
  exfalso
  simp only [requiredParams, c1, c2, c3, c4, c5, c6, c7, c8, c9, c10, c11, c12, c13,
    c14, c15, c16, c17, if_false, ite_false, List.not_mem_nil] at hp

/-- Witness for C2: `compile_blueprint` with an empty parameter bag. -/
theorem missing_required_param_witness :
    "blueprint_name" ∈ requiredParams "compile_blueprint" ∧
    isMissingParamMsg (handleCommand testEngine "compile_blueprint" []).1 ∧
    (handleCommand testEngine "compile_blueprint" []).2 = [] := by
  have hp : "blueprint_name" ∈ requiredParams "compile_blueprint" := by decide
  have habs : tryGetStringField [] "blueprint_name" = none := rfl
  exact ⟨hp, missing_required_param testEngine "compile_blueprint" [] "blueprint_name" hp habs⟩

/-- A concrete empty blueprint for witnesses. -/
def testBlueprint : Blueprint where
  name := "BP"
  parentClassName := none
  generatedClassName := none
  newVariables := []
  ubergraphPages := []
  functionGraphs := []
  simpleConstructionScript := some []
  implementedInterfaces := []

/-- `testEngine` extended so that the blueprint "BP" is found. -/
def bpEngine : Engine :=
  { testEngine with findBlueprint := fun n => if n = "BP" then some testBlueprint else none }

/-- Claim C3: when `compile_blueprint` finds the blueprint, the result has
`name` equal to the blueprint name and `compiled = true`; the compile call is
issued but its outcome is never consulted, so the response is the same for any
engine that agrees on the blueprint lookup (in particular for any compile
outcome). -/
theorem compile_blueprint_found (env : Engine) (ps : Params) (bn : String) (bp : Blueprint)
    (hbn : tryGetStringField ps "blueprint_name" = some bn)
    (hfound : env.findBlueprint bn = some bp) :
    handleCompileBlueprint env ps =
      (.ok [("name", .jstr bn), ("compiled", .jb true)],
       [.findBlueprint bn, .compileBlueprint bn]) ∧
    ∀ env2 : Engine, env2.findBlueprint bn = env.findBlueprint bn →
      (handleCompileBlueprint env2 ps).1 = (handleCompileBlueprint env ps).1 := by
  constructor
  · unfold handleCompileBlueprint; simp only [hbn, hfound]
  · intro env2 he
    unfold handleCompileBlueprint
    simp only [hbn, he, hfound]

/-- Witness for C3: compiling the concrete blueprint "BP". -/
theorem compile_blueprint_found_witness :
    tryGetStringField [("blueprint_name", JVal.jstr "BP")] "blueprint_name" = some "BP" ∧
    bpEngine.findBlueprint "BP" = some testBlueprint ∧
    handleCompileBlueprint bpEngine [("blueprint_name", JVal.jstr "BP")] =
      (.ok [("name", .jstr "BP"), ("compiled", .jb true)],
       [.findBlueprint "BP", .compileBlueprint "BP"]) := by
  refine ⟨rfl, rfl, ?_⟩
  exact (compile_blueprint_found bpEngine [("blueprint_name", JVal.jstr "BP")]
    "BP" testBlueprint rfl rfl).1

/-- Claim C4: when an asset already exists at "/Game/Blueprints/<name>",
`create_blueprint` returns "Blueprint already exists: <name>" and the only
engine call made is the existence query: no package is created, no factory is
run, no asset-registry entry is added. -/
theorem create_blueprint_exists (env : Engine) (ps : Params) (n : String)
    (hn : tryGetStringField ps "name" = some n)
    (hex : env.doesAssetExist ("/Game/Blueprints/" ++ n) = true) :
    handleCreateBlueprint env ps =
      (.err ("Blueprint already exists: " ++ n),
       [.doesAssetExist ("/Game/Blueprints/" ++ n)]) ∧
    ∀ c ∈ (handleCreateBlueprint env ps).2,
      (∀ s, c ≠ .createPackage s) ∧ (∀ pc s1 s2, c ≠ .factoryCreateNew pc s1 s2) ∧
      (∀ s, c ≠ .assetCreated s) := by
  have e : handleCreateBlueprint env ps =
      (.err ("Blueprint already exists: " ++ n),
       [.doesAssetExist ("/Game/Blueprints/" ++ n)]) := by
    unfold handleCreateBlueprint; simp only [hn, hex, reduceIte]
  refine ⟨e, ?_⟩
  rw [e]
  intro c hc
  simp only [List.mem_singleton] at hc
  subst hc
  refine ⟨fun s h => ?_, fun pc s1 s2 h => ?_, fun s h => ?_⟩ <;> simp at h

/-- Witness for C4: creating "BP" when it already exists. -/
theorem create_blueprint_exists_witness :
    handleCreateBlueprint { testEngine with doesAssetExist := fun _ => true }
        [("name", JVal.jstr "BP")] =
      (.err ("Blueprint already exists: " ++ "BP"),
       [.doesAssetExist ("/Game/Blueprints/" ++ "BP")]) := by
  exact (create_blueprint_exists { testEngine with doesAssetExist := fun _ => true }
    [("name", JVal.jstr "BP")] "BP" rfl rfl).1

/-- Claim C9: in `add_component_to_blueprint` the missing-field error messages
are mismatched: a missing `component_type` is reported as "Missing 'type'
parameter" and a missing `component_name` as "Missing 'name' parameter", each
naming a different field than the one the handler reads. -/
theorem add_component_param_messages (env : Engine) (ps : Params) (bn : String)
    (hbn : tryGetStringField ps "blueprint_name" = some bn) :
    (tryGetStringField ps "component_type" = none →
      (handleAddComponentToBlueprint env ps).1 = .err "Missing \x27type\x27 parameter") ∧
    (∀ ct, tryGetStringField ps "component_type" = some ct →
      tryGetStringField ps "component_name" = none →
      (handleAddComponentToBlueprint env ps).1 = .err "Missing \x27name\x27 parameter") ∧
    ("type" : String) ≠ "component_type" ∧ ("name" : String) ≠ "component_name" := by
  refine ⟨?_, ?_, by decide, by decide⟩
  · intro h2; unfold handleAddComponentToBlueprint; simp only [hbn, h2]
  · intro ct h2 h3; unfold handleAddComponentToBlueprint; simp only [hbn, h2, h3]

/-- Witness for C9 at concrete parameter bags. -/
theorem add_component_param_messages_witness :
    (handleAddComponentToBlueprint testEngine [("blueprint_name", JVal.jstr "BP")]).1 =
      .err "Missing \x27type\x27 parameter" ∧
    (handleAddComponentToBlueprint testEngine
        [("blueprint_name", JVal.jstr "BP"), ("component_type", JVal.jstr "StaticMesh")]).1 =
      .err "Missing \x27name\x27 parameter" := by
  constructor
  · exact (add_component_param_messages testEngine
      [("blueprint_name", JVal.jstr "BP")] "BP" rfl).1 rfl
  · exact (add_component_param_messages testEngine
      [("blueprint_name", JVal.jstr "BP"), ("component_type", JVal.jstr "StaticMesh")]
      "BP" rfl).2.1 "StaticMesh" rfl rfl

/-- `testEngine` whose blueprint factory always succeeds. -/
def factoryEngine : Engine :=
  { testEngine with factoryCreateNew := fun _ _ _ => some testBlueprint }

/-- Claim C10: a `parent_class` naming no findable class produces no error:
the parent silently falls back to `AActor` and the blueprint is still created
with a success response; a `parent_class` not starting with "A" is prefixed
with "A" before lookup. -/
theorem create_blueprint_parent_fallback (env : Engine) (ps : Params)
    (n pc : String) (bp : Blueprint)
    (hn : tryGetStringField ps "name" = some n)
    (hex : env.doesAssetExist ("/Game/Blueprints/" ++ n) = false)
    (hpc : tryGetStringField ps "parent_class" = some pc)
    (hne : pc ≠ "")
    (hnp : lookupClassName pc ≠ "APawn")
    (hna : lookupClassName pc ≠ "AActor")
    (hl1 : env.loadClassExists ("/Script/Engine." ++ lookupClassName pc) = false)
    (hl2 : env.loadClassExists ("/Script/Game." ++ lookupClassName pc) = false)
    (hfac : env.factoryCreateNew .actor ("/Game/Blueprints/" ++ n) n = some bp) :
    (resolveParentClass env pc).1 = .actor ∧
    (¬strStartsWith pc "A" → lookupClassName pc = "A" ++ pc) ∧
    (handleCreateBlueprint env ps).1 =
      .ok [("name", .jstr n), ("path", .jstr ("/Game/Blueprints/" ++ n))] := by
  have rp : resolveParentClass env pc =
      (.actor, [.loadClass ("/Script/Engine." ++ lookupClassName pc),
                .loadClass ("/Script/Game." ++ lookupClassName pc)]) := by
    unfold resolveParentClass
    simp only [hne, hnp, hna, hl1, hl2, reduceIte, Bool.false_eq_true, if_false, ite_false]
  refine ⟨by rw [rp], ?_, ?_⟩
  · intro h
    unfold lookupClassName
    simp only [h, Bool.false_eq_true, reduceIte, if_false, ite_false]
  · unfold handleCreateBlueprint
    simp only [hn, hex, hpc, Option.getD_some, rp, hfac, reduceIte,
      Bool.false_eq_true, if_false, ite_false]

/-- Witness for C10: parent class "GameMode" (prefixed to "AGameMode", not
found anywhere) silently falls back to `AActor`. -/
theorem create_blueprint_parent_fallback_witness :
    (resolveParentClass factoryEngine "GameMode").1 = .actor ∧
    lookupClassName "GameMode" = "A" ++ "GameMode" ∧
    (handleCreateBlueprint factoryEngine
        [("name", JVal.jstr "MyBP"), ("parent_class", JVal.jstr "GameMode")]).1 =
      .ok [("name", .jstr "MyBP"), ("path", .jstr ("/Game/Blueprints/" ++ "MyBP"))] := by
  have h := create_blueprint_parent_fallback factoryEngine
    [("name", JVal.jstr "MyBP"), ("parent_class", JVal.jstr "GameMode")]
    "MyBP" "GameMode" testBlueprint rfl rfl rfl (by decide) (by decide) (by decide)
    rfl rfl rfl
  exact ⟨h.1, h.2.1 (by decide), h.2.2⟩

/-- Claim C5: once `set_mesh_material_color` reaches colour parsing (blueprint
found, component found, component primitive), a `color` field that is not an
array of exactly 4 values yields the format error; and on a successful result
the `color` array is the input array with each component clamped to [0, 1]
(hence exactly 4 entries). -/
theorem set_mesh_material_color_clamps (env : Engine) (ps : Params)
    (bn cn : String) (bp : Blueprint) (scs : List (Option SCSNode)) (node : SCSNode)
    (comp : Component)
    (hbn : tryGetStringField ps "blueprint_name" = some bn)
    (hcn : tryGetStringField ps "component_name" = some cn)
    (hbp : env.findBlueprint bn = some bp)
    (hscs : bp.simpleConstructionScript = some scs)
    (hnode : findSCSNodeByName scs cn = some node)
    (hprim : castPrimitive node.componentTemplate = some comp) :
    (tryGetArrayField ps "color" = none →
      (handleSetMeshMaterialColor env ps).1 = .err colorFormatError) ∧
    (∀ arr, tryGetArrayField ps "color" = some arr → arr.length ≠ 4 →
      (handleSetMeshMaterialColor env ps).1 = .err colorFormatError) ∧
    (∀ arr r, tryGetArrayField ps "color" = some arr →
      (handleSetMeshMaterialColor env ps).1 = .ok r →
      getField r "color" =
        some (.jarr ((arr.map (fun v => clamp01 (asNumber v))).map JVal.jnum)) ∧
      ((arr.map (fun v => clamp01 (asNumber v))).map JVal.jnum).length = arr.length ∧
      arr.length = 4) := by
  refine ⟨?_, ?_, ?_⟩
  · intro harr
    unfold handleSetMeshMaterialColor
    simp only [hbn, hcn, hbp, hscs, hnode, hprim, harr]
  · intro arr harr hlen
    unfold handleSetMeshMaterialColor
    simp only [hbn, hcn, hbp, hscs, hnode, hprim, harr, if_pos hlen]
  · intro arr r harr hok
    by_cases hlen : arr.length = 4
    case neg =>
      exfalso
      have he : (handleSetMeshMaterialColor env ps).1 = .err colorFormatError := by
        unfold handleSetMeshMaterialColor
        simp only [hbn, hcn, hbp, hscs, hnode, hprim, harr, if_pos hlen]
      rw [hok] at he
      exact Response.noConfusion he
    case pos =>
      have hbase : handleSetMeshMaterialColor env ps =
          (let colors := arr.map (fun v => clamp01 (asNumber v))
           let slot := if hasField ps "material_slot" then
                         getIntegerField ps "material_slot" else 0
           let pname := (tryGetStringField ps "parameter_name").getD "BaseColor"
           let finish : MaterialT → Trace → HResult := fun mat matTrace =>
             match env.createDynMaterial mat with
             | none =>
               (.err "Failed to create dynamic material instance",
                [.findBlueprint bn] ++ matTrace ++ [.createDynMaterial mat.name])
             | some _dyn =>
               (.ok [("component", .jstr cn),
                     ("material_slot", .jnum (slot : Int)),
                     ("parameter_name", .jstr pname),
                     ("color", .jarr (colors.map JVal.jnum)),
                     ("success", .jb true)],
                [.findBlueprint bn] ++ matTrace ++
                  [.createDynMaterial mat.name, .setVectorParameter pname,
                   .setMaterial cn slot, .markBlueprintModified bn])
           match tryGetStringField ps "material_path" with
           | some mp =>
             match (env.loadAsset mp).bind Asset.asMaterial with
             | none =>
               (.err ("Failed to load material: " ++ mp),
                [.findBlueprint bn, .loadAsset mp])
             | some mat => finish mat [.loadAsset mp]
           | none =>
             match comp.getMaterial slot with
             | some mat => finish mat []
             | none =>
               let defPath := "/Engine/BasicShapes/BasicShapeMaterial"
               match (env.loadAsset defPath).bind Asset.asMaterial with
               | none =>
                 (.err "No material found on component and failed to load default material",
                  [.findBlueprint bn, .loadAsset defPath])
               | some mat => finish mat [.loadAsset defPath]) := by
        unfold handleSetMeshMaterialColor
        simp only [hbn, hcn, hbp, hscs, hnode, hprim, harr, if_neg (not_not_intro hlen)]
      -- Case-split the material resolution; every `.ok` branch exposes the
      -- same field list, whose "color" entry is the clamped input array.
      rw [hbase] at hok
      simp only at hok
      revert hok
      cases hmp : tryGetStringField ps "material_path" with
      | some mp =>
        cases hld : (env.loadAsset mp).bind Asset.asMaterial with
        | none => intro hok; simp [hld] at hok
        | some mat =>
          cases hdyn : env.createDynMaterial mat with
          | none => intro hok; simp [hld, hdyn] at hok
          | some dyn =>
            intro hok
            simp only [hld, hdyn, Response.ok.injEq] at hok
            subst hok
            exact ⟨rfl, by simp, hlen⟩
      | none =>
        cases hgm : comp.getMaterial (if hasField ps "material_slot" then
            getIntegerField ps "material_slot" else 0) with
        | some mat =>
          cases hdyn : env.createDynMaterial mat with
          | none => intro hok; simp [hgm, hdyn] at hok
          | some dyn =>
            intro hok
            simp only [hgm, hdyn, Response.ok.injEq] at hok
            subst hok
            exact ⟨rfl, by simp, hlen⟩
        | none =>
          cases hld : (env.loadAsset "/Engine/BasicShapes/BasicShapeMaterial").bind
              Asset.asMaterial with
          | none => intro hok; simp [hgm, hld] at hok
          | some mat =>
            cases hdyn : env.createDynMaterial mat with
            | none => intro hok; simp [hgm, hld, hdyn] at hok
            | some dyn =>
              intro hok
              simp only [hgm, hld, hdyn, Response.ok.injEq] at hok
              subst hok
              exact ⟨rfl, by simp, hlen⟩

/-- A concrete material for witnesses. -/
def testMaterial : MaterialT :=
  { name := "Mat", pathName := "/Game/Mat.Mat", className := "Material" }

/-- A concrete primitive component holding `testMaterial` in every slot. -/
def primComponent : Component where
  kind := .primitive
  className := "UPrimitiveComponent"
  getMaterial := fun _ => some testMaterial
  staticMesh := none

/-- A concrete SCS node named "Mesh" with `primComponent` as template. -/
def meshSCSNode : SCSNode where
  variableName := "Mesh"
  componentTemplate := some primComponent
  isDefaultSceneRoot := false

/-- A concrete blueprint whose construction script holds `meshSCSNode`. -/
def colorBlueprint : Blueprint where
  name := "BP"
  parentClassName := none
  generatedClassName := none
  newVariables := []
  ubergraphPages := []
  functionGraphs := []
  simpleConstructionScript := some [some meshSCSNode]
  implementedInterfaces := []

/-- Engine for the C5 witness: every blueprint lookup yields `colorBlueprint`
and dynamic material creation succeeds. -/
def colorEngine : Engine :=
  { testEngine with
    findBlueprint := fun _ => some colorBlueprint
    createDynMaterial := fun m => some m }

/-- The concrete colour array of the C5 witness: 2 and 3 clamp down to 1,
-1 clamps up to 0, 1 stays. -/
def colorArr : List JVal := [.jnum 2, .jnum 3, .jnum (-1), .jnum 1]

/-- Parameter bag of the C5 witness. -/
def colorParams : Params :=
  [("blueprint_name", .jstr "BP"), ("component_name", .jstr "Mesh"),
   ("color", .jarr colorArr)]

/-- The result fields the C5 witness produces. -/
def colorOkFields : List (String × JVal) :=
  [("component", .jstr "Mesh"), ("material_slot", .jnum ((0 : Int) : Rat)),
   ("parameter_name", .jstr "BaseColor"),
   ("color", .jarr [.jnum 1, .jnum 1, .jnum 0, .jnum 1]),
   ("success", .jb true)]

/-- Witness for C5: clamping [2, 3, -1, 1] gives [1, 1, 0, 1]. -/
theorem set_mesh_material_color_clamps_witness :
    (handleSetMeshMaterialColor colorEngine colorParams).1 = .ok colorOkFields ∧
    getField colorOkFields "color" =
      some (.jarr ((colorArr.map (fun v => clamp01 (asNumber v))).map JVal.jnum)) ∧
    colorArr.length = 4 := by
  have hok : (handleSetMeshMaterialColor colorEngine colorParams).1 = .ok colorOkFields := rfl
  have h := (set_mesh_material_color_clamps colorEngine colorParams "BP" "Mesh"
    colorBlueprint [some meshSCSNode] meshSCSNode primComponent
    rfl rfl rfl rfl rfl rfl).2.2 colorArr colorOkFields rfl hok
  exact ⟨hok, h.1, h.2.2⟩

/-- Claim C6: `analyze_blueprint_graph` on a loadable blueprint looks the graph
up by `graph_name` (default "EventGraph"), first among the event graphs
(`UbergraphPages`) and only then among the function graphs; a miss in both
yields "Graph not found: <name>", and a hit yields a `graph_data` whose
`nodes` array has exactly one entry per non-null node of the found graph. -/
theorem analyze_graph_lookup (env : Engine) (ps : Params) (path gname : String)
    (a : Asset) (bp : Blueprint)
    (hpath : tryGetStringField ps "blueprint_path" = some path)
    (hload : env.loadAsset path = some a)
    (hbp : a.asBlueprint = some bp)
    (hg : gname = (tryGetStringField ps "graph_name").getD "EventGraph") :
    (findGraphByName bp.ubergraphPages gname = none →
      findGraphByName bp.functionGraphs gname = none →
      (handleAnalyzeBlueprintGraph env ps).1 = .err ("Graph not found: " ++ gname)) ∧
    (∀ g, findGraphByName bp.ubergraphPages gname = some g →
      ∃ gd ns,
        getField [("graph_name", JVal.jstr g.name), ("graph_type", JVal.jstr g.klass),
            ("nodes", JVal.jarr ns), ("connections", gd)] "nodes" = some (.jarr ns) ∧
        (handleAnalyzeBlueprintGraph env ps).1 =
          .ok [("blueprint_path", .jstr path),
               ("graph_data", .jobj [("graph_name", .jstr g.name),
                                     ("graph_type", .jstr g.klass),
                                     ("nodes", .jarr ns), ("connections", gd)]),
               ("success", .jb true)] ∧
        ns.length = (g.nodes.filterMap id).length) ∧
    (∀ g, findGraphByName bp.ubergraphPages gname = none →
      findGraphByName bp.functionGraphs gname = some g →
      ∃ gd ns,
        (handleAnalyzeBlueprintGraph env ps).1 =
          .ok [("blueprint_path", .jstr path),
               ("graph_data", .jobj [("graph_name", .jstr g.name),
                                     ("graph_type", .jstr g.klass),
                                     ("nodes", .jarr ns), ("connections", gd)]),
               ("success", .jb true)] ∧
        ns.length = (g.nodes.filterMap id).length) := by
  subst hg
  refine ⟨?_, ?_, ?_⟩
  · intro hu hf
    unfold handleAnalyzeBlueprintGraph
    simp only [hpath, hload, Option.some_bind, hbp, hu, hf]
  · intro g hu
    refine ⟨.jarr ((g.nodes.filterMap id).flatMap
      (nodeConnections (tryGetBoolFieldD ps "include_pin_connections" true))),
      (g.nodes.filterMap id).map
        (analyzeNodeJson (tryGetBoolFieldD ps "include_node_details" true)
          (tryGetBoolFieldD ps "include_pin_connections" true)), rfl, ?_, by simp⟩
    unfold handleAnalyzeBlueprintGraph
    simp only [hpath, hload, Option.some_bind, hbp, hu]
  · intro g hu hf
    refine ⟨.jarr ((g.nodes.filterMap id).flatMap
      (nodeConnections (tryGetBoolFieldD ps "include_pin_connections" true))),
      (g.nodes.filterMap id).map
        (analyzeNodeJson (tryGetBoolFieldD ps "include_node_details" true)
          (tryGetBoolFieldD ps "include_pin_connections" true)), ?_, by simp⟩
    unfold handleAnalyzeBlueprintGraph
    simp only [hpath, hload, Option.some_bind, hbp, hu, hf]

/-- A node of the C6 witness graph. -/
def graphNode1 : EdGraphNode where
  name := "N1"
  klass := "K2Node_Event"
  title := "Event BeginPlay"
  posX := 0
  posY := 0
  canRename := false
  pins := []

/-- The C6 witness event graph with one live and one null node. -/
def eventGraph1 : EdGraph where
  name := "EventGraph"
  klass := "EdGraph"
  nodes := [some graphNode1, none]

/-- The C6 witness blueprint. -/
def graphBlueprint : Blueprint where
  name := "BP"
  parentClassName := none
  generatedClassName := none
  newVariables := []
  ubergraphPages := [some eventGraph1]
  functionGraphs := []
  simpleConstructionScript := some []
  implementedInterfaces := []

/-- The C6 witness asset: loads as `graphBlueprint`. -/
def graphAsset : Asset where
  name := "BP"
  pathName := "/Game/BP.BP"
  packageName := "/Game/BP"
  packagePath := "/Game"
  className := "Blueprint"
  isWorld := false
  isMaterialInterface := false
  asBlueprint := some graphBlueprint
  asMaterial := none
  asStaticMesh := none

/-- Engine for the C6 witness. -/
def graphEngine : Engine :=
  { testEngine with loadAsset := fun _ => some graphAsset }

/-- Witness for C6: asking for the absent graph "Nope" on a blueprint whose
only event graph is "EventGraph" yields the not-found error. -/
theorem analyze_graph_lookup_witness :
    (handleAnalyzeBlueprintGraph graphEngine
        [("blueprint_path", JVal.jstr "/Game/BP"), ("graph_name", JVal.jstr "Nope")]).1 =
      .err ("Graph not found: " ++ "Nope") := by
  exact (analyze_graph_lookup graphEngine
    [("blueprint_path", JVal.jstr "/Game/BP"), ("graph_name", JVal.jstr "Nope")]
    "/Game/BP" "Nope" graphAsset graphBlueprint rfl rfl rfl rfl).1 rfl rfl

/-- Claim C7: `open_asset_in_editor` on a loadable asset routes levels
(`UWorld`) exclusively through the level editor subsystem's `LoadLevel` (the
asset editor subsystem is never invoked) and every other asset exclusively
through `OpenEditorForAsset`; in either success case the result carries
`success = true`, `asset_path`, `asset_name` and `asset_class`. -/
theorem open_asset_routes (env : Engine) (ps : Params) (path : String) (a : Asset)
    (hpath : tryGetStringField ps "asset_path" = some path)
    (hload : env.loadAsset path = some a) :
    (a.isWorld = true →
      (∀ s, ECall.openEditorForAsset s ∉ (handleOpenAssetInEditor env ps).2) ∧
      (∀ r, (handleOpenAssetInEditor env ps).1 = .ok r →
        ECall.loadLevel path ∈ (handleOpenAssetInEditor env ps).2 ∧
        r = [("success", .jb true), ("asset_path", .jstr path),
             ("asset_name", .jstr a.name), ("asset_class", .jstr a.className)])) ∧
    (a.isWorld = false →
      (∀ s, ECall.loadLevel s ∉ (handleOpenAssetInEditor env ps).2) ∧
      (∀ r, (handleOpenAssetInEditor env ps).1 = .ok r →
        ECall.openEditorForAsset a.name ∈ (handleOpenAssetInEditor env ps).2 ∧
        r = [("success", .jb true), ("asset_path", .jstr path),
             ("asset_name", .jstr a.name), ("asset_class", .jstr a.className)])) := by
  constructor
  · intro hw
    cases hle : env.levelEditorAvailable with
    | false =>
      have e : handleOpenAssetInEditor env ps =
          (.err "Failed to get LevelEditorSubsystem", [.loadAsset path]) := by
        unfold handleOpenAssetInEditor; simp [hpath, hload, hw, hle]
      constructor
      · intro s; rw [e]; simp
      · intro r hok; rw [e] at hok; simp at hok
    | true =>
      cases hlo : env.loadLevelOk path with
      | false =>
        have e : handleOpenAssetInEditor env ps =
            (.err ("Failed to load level: " ++ path),
             [.loadAsset path, .loadLevel path]) := by
          unfold handleOpenAssetInEditor; simp [hpath, hload, hw, hle, hlo]
        constructor
        · intro s; rw [e]; simp
        · intro r hok; rw [e] at hok; simp at hok
      | true =>
        have e : handleOpenAssetInEditor env ps =
            (.ok [("success", .jb true), ("asset_path", .jstr path),
                  ("asset_name", .jstr a.name), ("asset_class", .jstr a.className)],
             [.loadAsset path, .loadLevel path]) := by
          unfold handleOpenAssetInEditor; simp [hpath, hload, hw, hle, hlo]
        constructor
        · intro s; rw [e]; simp
        · intro r hok
          rw [e] at hok
          simp only [Response.ok.injEq] at hok
          subst hok
          exact ⟨by rw [e]; simp, rfl⟩
  · intro hw
    cases hae : env.assetEditorAvailable with
    | false =>
      have e : handleOpenAssetInEditor env ps =
          (.err "Failed to get AssetEditorSubsystem", [.loadAsset path]) := by
        unfold handleOpenAssetInEditor; simp [hpath, hload, hw, hae]
      constructor
      · intro s; rw [e]; simp
      · intro r hok; rw [e] at hok; simp at hok
    | true =>
      cases hop : env.openEditorOk a.name with
      | false =>
        have e : handleOpenAssetInEditor env ps =
            (.err ("Failed to open editor for asset: " ++ path),
             [.loadAsset path, .openEditorForAsset a.name]) := by
          unfold handleOpenAssetInEditor; simp [hpath, hload, hw, hae, hop]
        constructor
        · intro s; rw [e]; simp
        · intro r hok; rw [e] at hok; simp at hok
      | true =>
        have e : handleOpenAssetInEditor env ps =
            (.ok [("success", .jb true), ("asset_path", .jstr path),
                  ("asset_name", .jstr a.name), ("asset_class", .jstr a.className)],
             [.loadAsset path, .openEditorForAsset a.name]) := by
          unfold handleOpenAssetInEditor; simp [hpath, hload, hw, hae, hop]
        constructor
        · intro s; rw [e]; simp
        · intro r hok
          rw [e] at hok
          simp only [Response.ok.injEq] at hok
          subst hok
          exact ⟨by rw [e]; simp, rfl⟩

/-- The C7 witness level asset. -/
def worldAsset : Asset where
  name := "L1"
  pathName := "/Game/L1.L1"
  packageName := "/Game/L1"
  packagePath := "/Game"
  className := "World"
  isWorld := true
  isMaterialInterface := false
  asBlueprint := none
  asMaterial := none
  asStaticMesh := none

/-- Engine for the C7 witness. -/
def worldEngine : Engine :=
  { testEngine with loadAsset := fun _ => some worldAsset }

/-- Witness for C7: opening the level "/Game/L1" goes through `LoadLevel`,
never `OpenEditorForAsset`, and reports success with the asset facts. -/
theorem open_asset_routes_witness :
    ECall.openEditorForAsset "L1" ∉
      (handleOpenAssetInEditor worldEngine [("asset_path", JVal.jstr "/Game/L1")]).2 ∧
    ECall.loadLevel "/Game/L1" ∈
      (handleOpenAssetInEditor worldEngine [("asset_path", JVal.jstr "/Game/L1")]).2 ∧
    (handleOpenAssetInEditor worldEngine [("asset_path", JVal.jstr "/Game/L1")]).1 =
      .ok [("success", .jb true), ("asset_path", .jstr "/Game/L1"),
           ("asset_name", .jstr "L1"), ("asset_class", .jstr "World")] := by
  have h := (open_asset_routes worldEngine [("asset_path", JVal.jstr "/Game/L1")]
    "/Game/L1" worldAsset rfl rfl).1 rfl
  refine ⟨h.1 "L1", ?_, rfl⟩
  exact (h.2 [("success", .jb true), ("asset_path", .jstr "/Game/L1"),
    ("asset_name", .jstr "L1"), ("asset_class", .jstr "World")] rfl).1

/-- The value claim C8 says `search_path_used` takes, written from the claim's
words (not from the source): "/Game/" when no `search_path` is supplied, and
otherwise the supplied path normalised to begin with "/" and end with "/". -/
def specSearchPathUsed : Option String → String
  | none => "/Game/"
  | some s => normalizeSearchPath s

/-- One step of the manual pass either leaves the accumulator unchanged or
appends the loaded asset, and it only appends when the asset path is not
already present. -/
theorem manualStep_cases (env : Engine) (acc : List AssetData) (p : String) :
    manualStep env acc p = acc ∨
    ∃ a, env.loadAsset p = some a ∧
      acc.any (fun d => d.objectPathString == p) = false ∧
      manualStep env acc p = acc ++ [assetDataOfAsset a] := by
  by_cases hc : (strContains p "Material" && !strContains p ".uasset") = true
  · cases hl : env.loadAsset p with
    | none => exact .inl (by unfold manualStep; rw [if_pos hc, hl])
    | some a =>
      cases him : a.isMaterialInterface with
      | false => exact .inl (by unfold manualStep; rw [if_pos hc, hl]; simp [him])
      | true =>
        cases hany : acc.any (fun d => d.objectPathString == p) with
        | true => exact .inl (by unfold manualStep; rw [if_pos hc, hl]; simp [him, hany])
        | false =>
          exact .inr ⟨a, rfl, rfl,
            by unfold manualStep; rw [if_pos hc, hl]; simp [him, hany]⟩
  · exact .inl (by unfold manualStep; rw [if_neg hc])

/-- The manual pass only appends entries, and (when loaded assets carry the
path they were loaded from) never appends an entry whose object path is
already in the starting accumulator. -/
theorem manualPass_extends (env : Engine)
    (hpaths : ∀ p a, env.loadAsset p = some a → a.pathName = p)
    (paths : List String) :
    ∀ acc : List AssetData,
      ∃ extra, manualPass env acc paths = acc ++ extra ∧
        ∀ d ∈ extra, d.objectPathString ∉ acc.map AssetData.objectPathString := by
  induction paths with
  | nil =>
    intro acc
    exact ⟨[], by simp [manualPass], by simp⟩
  | cons p rest ih =>
    intro acc
    have hfold : manualPass env acc (p :: rest) =
        manualPass env (manualStep env acc p) rest := rfl
    rcases manualStep_cases env acc p with he | ⟨a, hl, hany, he⟩
    · obtain ⟨extra, h1, h2⟩ := ih acc
      refine ⟨extra, ?_, h2⟩
      rw [hfold, he, h1]
    · obtain ⟨extra, h1, h2⟩ := ih (acc ++ [assetDataOfAsset a])
      refine ⟨assetDataOfAsset a :: extra, ?_, ?_⟩
      · rw [hfold, he, h1]; simp
      · intro d hd
        rcases List.mem_cons.mp hd with rfl | hd2
        · have hpath2 : (assetDataOfAsset a).objectPathString = p := hpaths p a hl
          rw [hpath2]
          intro hmem
          rcases List.mem_map.mp hmem with ⟨x, hx, hxe⟩
          have hall := List.any_eq_false.mp hany x hx
          rw [beq_iff_eq] at hall
          exact hall hxe
        · have h3 := h2 d hd2
          intro hmem
          exact h3 (by rw [List.map_append]; exact List.mem_append_left _ hmem)

/-- Counterexample to claim C8 as stated: with `search_path` supplied as the
empty string, the handler reports `search_path_used = "/Game/"`, while the
claim's normalisation of the supplied path gives "/". -/
theorem get_available_materials_counterexample :
    (handleGetAvailableMaterials testEngine [("search_path", JVal.jstr "")]).1 =
      .ok [("materials", .jarr []), ("count", .jnum ((0 : Nat) : Rat)),
           ("search_path_used", .jstr "/Game/")] ∧
    specSearchPathUsed (some "") = "/" ∧
    ("/Game/" : String) ≠ "/" := by
  refine ⟨rfl, rfl, by decide⟩

/-- Claim C8 as amended: `count` equals the number of `materials` entries;
`search_path_used` is "/Game/" when `search_path` is absent or supplied as the
empty string, and otherwise the supplied path normalised to begin and end with
"/"; and — assuming `LoadAsset` returns the asset living at the requested path
— the manual pass never adds an asset whose object path already appears in the
asset-registry results. -/
theorem get_available_materials_amended (env : Engine) (ps : Params)
    (hpaths : ∀ p a, env.loadAsset p = some a → a.pathName = p) :
    ∃ extra,
      (handleGetAvailableMaterials env ps).1 =
        .ok [("materials", .jarr ((availableMaterialsList env ps).map assetDataToJson)),
             ("count",
              .jnum (((availableMaterialsList env ps).map assetDataToJson).length : Nat)),
             ("search_path_used",
              .jstr (match tryGetStringField ps "search_path" with
                     | none => "/Game/"
                     | some s => if s = "" then "/Game/" else normalizeSearchPath s))] ∧
      availableMaterialsList env ps = regResultsOf env ps ++ extra ∧
      ∀ d ∈ extra,
        d.objectPathString ∉ (regResultsOf env ps).map AssetData.objectPathString := by
  obtain ⟨extra, h1, h2⟩ :=
    manualPass_extends env hpaths (env.listAssets (listPathOf ps)) (regResultsOf env ps)
  refine ⟨extra, ?_, h1, h2⟩
  have hs : (if searchPathOf ps = "" then "/Game/"
             else normalizeSearchPath (searchPathOf ps)) =
      (match tryGetStringField ps "search_path" with
       | none => "/Game/"
       | some s => if s = "" then "/Game/" else normalizeSearchPath s) := by
    cases hsp : tryGetStringField ps "search_path" with
    | none => simp [searchPathOf, hsp]
    | some s =>
      by_cases hse : s = ""
      · simp [searchPathOf, hsp, hse]
      · simp [searchPathOf, hsp, hse]
  unfold handleGetAvailableMaterials
  rw [hs]
  simp [List.length_map]

/-- Witness for the amended C8, on the empty parameter bag and the empty
engine: the hypothesis on `LoadAsset` holds vacuously. -/
theorem get_available_materials_amended_witness :
    (handleGetAvailableMaterials testEngine []).1 =
      .ok [("materials", .jarr []), ("count", .jnum ((0 : Nat) : Rat)),
           ("search_path_used", .jstr "/Game/")] := by
  have hp : ∀ p a, testEngine.loadAsset p = some a → a.pathName = p :=
    fun p a h => Option.noConfusion h
  obtain ⟨extra, h1, h2, h3⟩ := get_available_materials_amended testEngine [] hp
  exact h1.trans rfl

end UnrealMCP
